import Mathlib

/-!
Verification of the zero-trust-workload-identity-manager reconciliation core.

This file embeds, in Lean 4, the parts of the operator's Go source that the
verified claims are about:

* the top-level status aggregator and its operand-state classifier
  (`pkg/controller/zero-trust-workload-identity-manager/controller.go`),
* the SPIRE server configuration rendering, bundle-endpoint emission and
  canonical hashing (`pkg/controller/spire-server/configmap.go`),
* the federation validators (`pkg/controller/spire-server/federation_validation.go`),
* the federation service, route and StatefulSet generators
  (`federation_service.go`, `federation_route.go`, `statefulset.go` and the
  more recent StatefulSet generator snapshot), and
* the create-or-update control flow of the SpireServer reconciler
  (`pkg/controller/spire-server/controller.go`).

The repository contains two near-duplicate snapshots of the StatefulSet
generator and of the federation route generator; both are embedded, the more
recent one under the source name and the older one with a `Legacy` suffix.
Go machine integers (`int32`, `int`) are modelled as `Int`; Go strings as
`String`; nil-able pointers as `Option`.
-/

/-! ## Go string helpers

Models of the Go standard-library string functions used by the controller
code.  `strings.ToLower` / `unicode.IsSpace` are modelled on the character
ranges that actually occur in the controller's inputs (ASCII plus the two
Latin-1 white-space code points recognised by Go). -/

/-- Model of Go `strings.ToLower` (ASCII range, which covers all reason and
message strings produced by the operator). -/
def goToLower (s : String) : String :=
  String.mk (s.data.map Char.toLower)

/-- Contiguous-substring scan over character lists. -/
def charsContain (needle : List Char) : List Char → Bool
  | [] => needle.isEmpty
  | c :: cs => needle.isPrefixOf (c :: cs) || charsContain needle cs

/-- Model of Go `strings.Contains`. -/
def goContains (s substr : String) : Bool :=
  charsContain substr.data s.data

/-- `contains` from the aggregator
(`zero-trust-workload-identity-manager/controller.go`): case-insensitive
substring match implemented as `strings.Contains(strings.ToLower(s), strings.ToLower(substr))`. -/
def containsFold (s substr : String) : Bool :=
  goContains (goToLower s) (goToLower substr)

/-- Characters treated as white space by Go `unicode.IsSpace` in the Latin-1
range: `\t \n \v \f \r ' '` plus U+0085 and U+00A0. -/
def goIsSpace (c : Char) : Bool :=
  c = ' ' ∨ c = '\t' ∨ c = '\n' ∨ c = (Char.ofNat 11) ∨ c = (Char.ofNat 12) ∨
    c = '\r' ∨ c = (Char.ofNat 133) ∨ c = (Char.ofNat 160)

/-- Model of Go `strings.TrimSpace`: drop leading and trailing white space. -/
def goTrimSpace (s : String) : String :=
  String.mk (((s.data.dropWhile goIsSpace).reverse.dropWhile goIsSpace).reverse)

/-- Model of `utils.StringToBool`.  Modelled from the spec: the utils package
is not part of the provided sources; the spec describes string-encoded
booleans whose true value is the literal `"true"` (e.g. `tos_accepted="true"`,
ready flag `"true"`/`"false"`). -/
def StringToBool (s : String) : Bool :=
  s = "true"

/-- Go `fmt.Sprintf("%v", xs)` for a string slice: elements joined by single
spaces inside brackets; a nil slice prints as `[]`. -/
def goFmtStrSlice (xs : List String) : String :=
  "[" ++ String.intercalate " " xs ++ "]"

/-! ## Condition and operand-status data model

`metav1.Condition` and `v1alpha1.OperandStatus` restricted to the fields the
aggregator reads.  Condition statuses are the strings `"True"` / `"False"` /
`"Unknown"` of `metav1.ConditionStatus`. -/

/-- `metav1.Condition`, restricted to the fields read by the aggregator. -/
structure KCondition where
  ctype : String
  status : String
  reason : String
  message : String
deriving DecidableEq, Repr

/-- `v1alpha1.OperandStatus`: the per-operand summary record. -/
structure OperandStatus where
  kind : String
  name : String
  ready : String
  message : String
  conditions : List KCondition
deriving DecidableEq, Repr

/-- `apimeta.FindStatusCondition`: first condition with the given type. -/
def FindStatusCondition (conds : List KCondition) (t : String) : Option KCondition :=
  conds.find? (fun c => c.ctype = t)

/-! Reason and message constants.  The `OperandState*` and `OperandMessage*`
constants are declared in the aggregator source.  The `v1alpha1.Reason*`
constants live in the API package, which is not among the provided sources;
they are modelled from the spec (§4.2 names the reasons `InProgress`,
`NotFound`, `InitialReconcile`, `Reconciling`, `Failed`, `Unhealthy`,
`OperandsNotReady`, `Ready`, all of which are spelled identically to their
constant names throughout the spec). -/

def OperandStateNotFound : String := "NotFound"

def OperandStateInitialReconcile : String := "InitialReconcile"

def OperandStateReconciling : String := "Reconciling"

def OperandStateUnhealthy : String := "Unhealthy"

def OperandMessageCRNotFound : String := "CR not found"

def OperandMessageWaitingInitialRecon : String := "Waiting for initial reconciliation"

def OperandMessageReconciling : String := "Reconciling"

/-- Modelled from the spec: `v1alpha1.ReasonInProgress`. -/
def ReasonInProgress : String := "InProgress"

/-- Modelled from the spec: `v1alpha1.ReasonFailed`. -/
def ReasonFailed : String := "Failed"

/-- Modelled from the spec: `v1alpha1.ReasonReady`. -/
def ReasonReady : String := "Ready"

/-- Modelled from the spec: `v1alpha1.Ready` condition type. -/
def ReadyConditionType : String := "Ready"

/-- `operandStateClassification` from the aggregator. -/
inductive OperandClassification where
  | progressing
  | failed
  | ready
deriving DecidableEq, Repr

/-- `classifyOperandState` from
`zero-trust-workload-identity-manager/controller.go` (lines 69–110):
ready flag first; then the `Ready` condition's reason against the known
progressing reasons (`InProgress`, `NotFound`, `InitialReconcile`,
`Reconciling`), failure reasons (`Failed`, `Unhealthy`) and the ready reason
(`Ready`); then the structured message constants; then case-insensitive
substring matching; defaulting to failed. -/
def classifyOperandState (operand : OperandStatus) (readyCondition : Option KCondition) :
    OperandClassification :=
  if StringToBool operand.ready then .ready
  else
    let structured : Option OperandClassification :=
      match readyCondition with
      | some c =>
        if c.reason ≠ "" then
          if c.reason = ReasonInProgress ∨ c.reason = OperandStateNotFound ∨
              c.reason = OperandStateInitialReconcile ∨ c.reason = OperandStateReconciling then
            some .progressing
          else if c.reason = ReasonFailed ∨ c.reason = OperandStateUnhealthy then
            some .failed
          else if c.reason = ReasonReady then
            some .ready
          else none
        else none
      | none => none
    match structured with
    | some k => k
    | none =>
      if operand.message = OperandMessageCRNotFound ∨
          operand.message = OperandMessageWaitingInitialRecon ∨
          operand.message = OperandMessageReconciling then
        .progressing
      else if containsFold operand.message "not found" ∨ containsFold operand.message "initial" ∨
          containsFold operand.message "reconciling" ∨ containsFold operand.message "progressing" then
        .progressing
      else
        .failed

/-- Classification of a record, using its own `Ready` condition, as done at
each call site of `classifyOperandState` in the aggregator. -/
def classifyRecord (o : OperandStatus) : OperandClassification :=
  classifyOperandState o (FindStatusCondition o.conditions ReadyConditionType)

/-- `operandAggregateState`: counters tracked across the four operands. -/
structure OperandAggregateState where
  allReady : Bool
  notCreatedCount : Nat
  failedCount : Nat
  anyOperandExists : Bool
deriving DecidableEq, Repr

/-- `processOperandStatus` from the aggregator (lines 363–381): updates the
aggregate counters for one operand record. -/
def processOperandStatus (operand : OperandStatus) (state : OperandAggregateState) :
    OperandAggregateState :=
  let state :=
    if operand.message ≠ OperandMessageCRNotFound then
      { state with anyOperandExists := true }
    else state
  if ¬ StringToBool operand.ready then
    let state := { state with allReady := false }
    if classifyRecord operand = .progressing then
      { state with notCreatedCount := state.notCreatedCount + 1 }
    else
      { state with failedCount := state.failedCount + 1 }
  else state

/-- `aggregateOperandStatus` counter part: fold `processOperandStatus` over
the operand records starting from `allReady = true`. -/
def aggregateCounters (rs : List OperandStatus) : OperandAggregateState :=
  rs.foldl (fun s o => processOperandStatus o s)
    { allReady := true, notCreatedCount := 0, failedCount := 0, anyOperandExists := false }

/-- The per-operand tag used in the `InProgress` message of `Reconcile`
(lines 289–296): operands classified progressing are listed as
`Kind(not created)` when their message is the CR-not-found constant and as
`Kind(reconciling)` otherwise. -/
def pendingOperandTag (o : OperandStatus) : Option String :=
  if classifyRecord o = .progressing then
    if o.message = OperandMessageCRNotFound then some (o.kind ++ "(not created)")
    else some (o.kind ++ "(reconciling)")
  else none

/-- The `Kind/Name` entries of the `Failed` message of `Reconcile`
(lines 309–317): operands classified failed. -/
def unhealthyOperandTag (o : OperandStatus) : Option String :=
  if classifyRecord o = .failed then some (o.kind ++ "/" ++ o.name) else none

/-- A condition written by the aggregator (`statusMgr.AddCondition` call). -/
structure CondOut where
  ctype : String
  status : String
  reason : String
  message : String
deriving DecidableEq, Repr

/-- The aggregation branch of `Reconcile` in
`zero-trust-workload-identity-manager/controller.go` (lines 272–327): the
pair of `OperandsAvailable` and `Ready` conditions written for a given set of
operand records. -/
def aggregateTopLevelConditions (rs : List OperandStatus) : List CondOut :=
  let result := aggregateCounters rs
  if result.allReady then
    [⟨"OperandsAvailable", "True", ReasonReady, "All operand CRs are ready"⟩,
     ⟨"Ready", "True", ReasonReady, "All components are ready"⟩]
  else if result.notCreatedCount > 0 ∧ result.failedCount = 0 then
    let pendingOperands := rs.filterMap pendingOperandTag
    let message := "Waiting for operands: " ++ goFmtStrSlice pendingOperands
    [⟨"OperandsAvailable", "False", ReasonInProgress, message⟩,
     ⟨"Ready", "False", ReasonInProgress, message⟩]
  else
    let unhealthyOperands := rs.filterMap unhealthyOperandTag
    let message := "Some operands not ready: " ++ goFmtStrSlice unhealthyOperands
    [⟨"OperandsAvailable", "False", ReasonFailed, message⟩,
     ⟨"Ready", "False", ReasonFailed, message⟩]

/-! ## SpireServer API types

`api/v1alpha1` types restricted to the fields read by the embedded functions.
`BundleEndpointProfile` is a Go string type, so it is modelled as `String`
with the two named constants; this keeps inputs outside the declared enum
expressible, exactly as they are in Go. -/

/-- `v1alpha1.HttpsSpiffeProfile`. -/
def HttpsSpiffeProfile : String := "https_spiffe"

/-- `v1alpha1.HttpsWebProfile`. -/
def HttpsWebProfile : String := "https_web"

/-- `v1alpha1.AcmeConfig`. -/
structure AcmeConfig where
  directoryUrl : String
  domainName : String
  email : String
  tosAccepted : String
deriving DecidableEq, Repr

/-- `v1alpha1.ServingCertConfig`.  `externalCertificate` is the field read by
the recent federation route generator snapshot
(`federation_route.go`, second snapshot, lines 201–207). -/
structure ServingCertConfig where
  secretName : String
  fileSyncInterval : Int
  externalCertificate : String
deriving DecidableEq, Repr

/-- `v1alpha1.HttpsWebConfig`: mutually exclusive ACME / serving-cert blocks. -/
structure HttpsWebConfig where
  acme : Option AcmeConfig
  servingCert : Option ServingCertConfig
deriving DecidableEq, Repr

/-- `v1alpha1.BundleEndpointConfig`. -/
structure BundleEndpointConfig where
  port : Int
  address : String
  profile : String
  refreshHint : Int
  httpsWeb : Option HttpsWebConfig
deriving DecidableEq, Repr

/-- `v1alpha1.FederatesWithConfig`. -/
structure FederatesWithConfig where
  trustDomain : String
  bundleEndpointUrl : String
  bundleEndpointProfile : String
  endpointSpiffeId : String
deriving DecidableEq, Repr

/-- `v1alpha1.FederationConfig`. -/
structure FederationConfig where
  bundleEndpoint : BundleEndpointConfig
  federatesWith : List FederatesWithConfig
  managedRoute : String
deriving DecidableEq, Repr

/-- `v1alpha1.CASubject`. -/
structure CASubject where
  country : String
  organization : String
  commonName : String
deriving DecidableEq, Repr

/-- `v1alpha1.DataStore`, restricted to the fields read by the config
renderer and the StatefulSet generator.  `tlsSecretName` is the field read by
the recent StatefulSet generator snapshot. -/
structure DataStore where
  databaseType : String
  connectionString : String
  disableMigration : String
  maxOpenConns : Int
  maxIdleConns : Int
  tlsSecretName : String
deriving DecidableEq, Repr

/-- `v1alpha1.Persistence`. -/
structure Persistence where
  ptype : String
  size : String
  accessMode : String
  storageClass : String
  hostPath : String
deriving DecidableEq, Repr

/-- `v1alpha1.SpireServerSpec`, restricted to the fields read by the embedded
functions.  The `metav1.Duration` fields are modelled as their
JSON-marshalled string forms (Go marshals `metav1.Duration` as a string). -/
structure SpireServerSpec where
  logLevel : String
  logFormat : String
  trustDomain : String
  clusterName : String
  bundleConfigMap : String
  jwtIssuer : String
  caValidity : String
  defaultX509Validity : String
  defaultJWTValidity : String
  caSubject : CASubject
  persistence : Persistence
  datastore : DataStore
  federation : Option FederationConfig
  labels : List (String × String)
deriving DecidableEq, Repr

/-- `v1alpha1.SpireServer` (metadata fixed to the singleton `cluster`). -/
structure SpireServer where
  spec : SpireServerSpec
deriving DecidableEq, Repr

/-! ## JSON document model

`map[string]interface{}` values rendered into the SPIRE server configuration.
Objects are association lists in the insertion order of the Go source;
Go `encoding/json` serialises map keys in sorted order, which the serialiser
below reproduces, so serialisation is insensitive to that order. -/

/-- JSON values as built by `generateServerConfMap`. -/
inductive Jsonv where
  | null
  | bool (b : Bool)
  | num (n : Int)
  | str (s : String)
  | arr (xs : List Jsonv)
  | obj (kvs : List (String × Jsonv))

/-- Go JSON string quoting (the characters occurring in rendered configs:
quote, backslash and ASCII control characters are escaped). -/
def goJsonQuoteChar (c : Char) : String :=
  if c = '"' then "\\\""
  else if c = '\\' then "\\\\"
  else if c = '\n' then "\\n"
  else if c = '\r' then "\\r"
  else if c = '\t' then "\\t"
  else String.mk [c]

/-- Go JSON string quoting. -/
def goJsonQuote (s : String) : String :=
  "\"" ++ String.join (s.data.map goJsonQuoteChar) ++ "\""

/-- Key-sorting step of Go `encoding/json` map serialisation.  Go serialises
`map[string]interface{}` keys in sorted order; the object constructors below
apply this sort when an object literal is built, so the serialiser can print
fields in stored order. -/
def sortKeys (kvs : List (String × Jsonv)) : List (String × Jsonv) :=
  kvs.mergeSort (fun a b => a.1 ≤ b.1)

/-- Object constructor applying Go's canonical (sorted) map-key order. -/
def Jsonv.mkObj (kvs : List (String × Jsonv)) : Jsonv :=
  .obj (sortKeys kvs)

mutual

/-- `json.MarshalIndent(data, "", "  ")` on a JSON value: two-space indented
rendering; object fields print in stored (canonical) order. -/
def marshalIndent (indent : String) : Jsonv → String
  | .null => "null"
  | .bool b => if b then "true" else "false"
  | .num n => toString n
  | .str s => goJsonQuote s
  | .arr [] => "[]"
  | .arr (x :: xs) =>
      "[\n" ++ marshalIndentItems (indent ++ "  ") (x :: xs) ++ "\n" ++ indent ++ "]"
  | .obj [] => "\x7b" ++ "\x7d"
  | .obj (kv :: kvs) =>
      "\x7b\n" ++ marshalIndentFields (indent ++ "  ") (kv :: kvs) ++ "\n" ++ indent ++ "\x7d"

/-- Array elements, comma-and-newline separated. -/
def marshalIndentItems (indent : String) : List Jsonv → String
  | [] => ""
  | [x] => indent ++ marshalIndent indent x
  | x :: y :: xs =>
      indent ++ marshalIndent indent x ++ ",\n" ++ marshalIndentItems indent (y :: xs)

/-- Object fields, comma-and-newline separated. -/
def marshalIndentFields (indent : String) : List (String × Jsonv) → String
  | [] => ""
  | [(k, v)] => indent ++ goJsonQuote k ++ ": " ++ marshalIndent indent v
  | (k, v) :: kv2 :: kvs =>
      indent ++ goJsonQuote k ++ ": " ++ marshalIndent indent v ++ ",\n" ++
        marshalIndentFields indent (kv2 :: kvs)

end

/-- `marshalToJSON` from `configmap.go` (lines 167–173): marshal the
configuration map to indented JSON. -/
def marshalToJSON (data : Jsonv) : String :=
  marshalIndent "" data

/-! ## SHA-256 and canonical hashing

An executable FIPS 180-4 SHA-256 over byte lists, modelling Go
`crypto/sha256`, together with hex encoding (`encoding/hex`) and UTF-8
encoding of strings (Go strings hash as their UTF-8 bytes). -/

/-- UTF-8 encoding of one character (RFC 3629). -/
def utf8EncodeChar (c : Char) : List Nat :=
  let n := c.toNat
  if n < 128 then [n]
  else if n < 2048 then [192 + n / 64, 128 + n % 64]
  else if n < 65536 then [224 + n / 4096, 128 + (n / 64) % 64, 128 + n % 64]
  else [240 + n / 262144, 128 + (n / 4096) % 64, 128 + (n / 64) % 64, 128 + n % 64]

/-- UTF-8 bytes of a string (Go `[]byte(s)`). -/
def strBytes (s : String) : List Nat :=
  s.data.flatMap utf8EncodeChar

/-- 32-bit truncation. -/
def w32 (n : Nat) : Nat := n % 4294967296

/-- 32-bit right rotation. -/
def rotr32 (k x : Nat) : Nat :=
  w32 ((x / 2 ^ k) + (x % 2 ^ k) * 2 ^ (32 - k))

/-- 32-bit right shift. -/
def shr32 (k x : Nat) : Nat := x / 2 ^ k

/-- Bitwise exclusive or on naturals (32-bit operands). -/
def bxor (a b : Nat) : Nat := Nat.xor a b

/-- SHA-256 `Ch(x,y,z) = (x AND y) XOR (NOT x AND z)`. -/
def sha256Ch (x y z : Nat) : Nat :=
  bxor (Nat.land x y) (Nat.land (4294967295 - x) z)

/-- SHA-256 `Maj(x,y,z)`. -/
def sha256Maj (x y z : Nat) : Nat :=
  bxor (bxor (Nat.land x y) (Nat.land x z)) (Nat.land y z)

/-- SHA-256 `Σ0`. -/
def sha256BigSigma0 (x : Nat) : Nat := bxor (bxor (rotr32 2 x) (rotr32 13 x)) (rotr32 22 x)

/-- SHA-256 `Σ1`. -/
def sha256BigSigma1 (x : Nat) : Nat := bxor (bxor (rotr32 6 x) (rotr32 11 x)) (rotr32 25 x)

/-- SHA-256 `σ0`. -/
def sha256SmallSigma0 (x : Nat) : Nat := bxor (bxor (rotr32 7 x) (rotr32 18 x)) (shr32 3 x)

/-- SHA-256 `σ1`. -/
def sha256SmallSigma1 (x : Nat) : Nat := bxor (bxor (rotr32 17 x) (rotr32 19 x)) (shr32 10 x)

/-- SHA-256 round constants (FIPS 180-4, in decimal). -/
def sha256K : List Nat :=
  [1116352408, 1899447441, 3049323471, 3921009573, 961987163, 1508970993,
   2453635748, 2870763221, 3624381080, 310598401, 607225278, 1426881987,
   1925078388, 2162078206, 2614888103, 3248222580, 3835390401, 4022224774,
   264347078, 604807628, 770255983, 1249150122, 1555081692, 1996064986,
   2554220882, 2821834349, 2952996808, 3210313671, 3336571891, 3584528711,
   113926993, 338241895, 666307205, 773529912, 1294757372, 1396182291,
   1695183700, 1986661051, 2177026350, 2456956037, 2730485921, 2820302411,
   3259730800, 3345764771, 3516065817, 3600352804, 4094571909, 275423344,
   430227734, 506948616, 659060556, 883997877, 958139571, 1322822218,
   1537002063, 1747873779, 1955562222, 2024104815, 2227730452, 2361852424,
   2428436474, 2756734187, 3204031479, 3329325298]

/-- Initial SHA-256 hash state (FIPS 180-4, in decimal). -/
def sha256H0 : List Nat :=
  [1779033703, 3144134277, 1013904242, 2773480762,
   1359893119, 2600822924, 528734635, 1541459225]

/-- Big-endian bytes (most significant first) of a value, fixed width. -/
def beBytes (width n : Nat) : List Nat :=
  (List.range width).map (fun i => (n / 2 ^ (8 * (width - 1 - i))) % 256)

/-- SHA-256 message padding: append `0x80`, zero-fill to 56 mod 64, append
the 64-bit big-endian bit length. -/
def sha256Pad (msg : List Nat) : List Nat :=
  let padLen := (55 + 64 - msg.length % 64) % 64 + 1
  msg ++ [128] ++ List.replicate (padLen - 1) 0 ++ beBytes 8 (8 * msg.length)

/-- Group a byte list into 32-bit big-endian words. -/
def bytesToWords : List Nat → List Nat
  | b0 :: b1 :: b2 :: b3 :: rest =>
      (b0 * 16777216 + b1 * 65536 + b2 * 256 + b3) :: bytesToWords rest
  | _ => []

/-- Message-schedule extension: push the next `fuel` scheduled words (48 for
a full block, extending 16 words to 64). -/
def sha256Extend (ws : Array Nat) : Nat → Array Nat
  | 0 => ws
  | fuel + 1 =>
    let t := ws.size
    let w := w32 (sha256SmallSigma1 (ws.getD (t - 2) 0) + ws.getD (t - 7) 0 +
      sha256SmallSigma0 (ws.getD (t - 15) 0) + ws.getD (t - 16) 0)
    sha256Extend (ws.push w) fuel

/-- One SHA-256 compression round. -/
def sha256Round (kt wt : Nat) (st : List Nat) : List Nat :=
  match st with
  | [a, b, c, d, e, f, g, h] =>
    let t1 := w32 (h + sha256BigSigma1 e + sha256Ch e f g + kt + wt)
    let t2 := w32 (sha256BigSigma0 a + sha256Maj a b c)
    [w32 (t1 + t2), a, b, c, w32 (d + t1), e, f, g]
  | st => st

/-- Process one 64-byte block into the running hash state. -/
def sha256Block (hstate : List Nat) (block : List Nat) : List Nat :=
  let ws := sha256Extend (Array.mk (bytesToWords block)) 48
  let final := (List.zip sha256K ws.toList).foldl (fun st kw => sha256Round kw.1 kw.2 st) hstate
  (List.zip hstate final).map (fun p => w32 (p.1 + p.2))

/-- Split a byte list into 64-byte blocks; `fuel` bounds the number of
blocks (the byte length suffices). -/
def chunk64Go (fuel : Nat) (bs : List Nat) : List (List Nat) :=
  match fuel, bs with
  | 0, _ => []
  | _, [] => []
  | fuel + 1, b :: rest => (b :: rest).take 64 :: chunk64Go fuel ((b :: rest).drop 64)

/-- Split a padded message into 64-byte blocks. -/
def chunk64 (bs : List Nat) : List (List Nat) :=
  chunk64Go bs.length bs

/-- SHA-256 digest (32 bytes) of a byte list. -/
def sha256Bytes (msg : List Nat) : List Nat :=
  let hstate := (chunk64 (sha256Pad msg)).foldl sha256Block sha256H0
  hstate.flatMap (beBytes 4)

/-- One hexadecimal digit. -/
def hexDigit (n : Nat) : Char :=
  if n < 10 then Char.ofNat (48 + n) else Char.ofNat (87 + n)

/-- `hex.EncodeToString`: lowercase hex of a byte list. -/
def hexEncodeBytes (bs : List Nat) : String :=
  String.mk (bs.flatMap (fun b => [hexDigit (b / 16), hexDigit (b % 16)]))

/-- `generateConfigHash` from `configmap.go` (lines 263–267): trim the input,
SHA-256 it, hex-encode the digest.  Byte/string conversions of the Go code
are the UTF-8 encoding. -/
def generateConfigHash (data : String) : String :=
  let normalized := goTrimSpace data
  hexEncodeBytes (sha256Bytes (strBytes normalized))

/-- `generateConfigHashFromString` from `configmap.go` (lines 257–260). -/
def generateConfigHashFromString (data : String) : String :=
  generateConfigHash (goTrimSpace data)

/-! ## SPIRE server configuration rendering (`configmap.go`) -/

/-- `utils.OperatorNamespace`. -/
def OperatorNamespace : String := "zero-trust-workload-identity-manager"

/-- Go `fmt.Sprintf("%ds", n)`. -/
def goSeconds (n : Int) : String := toString n ++ "s"

/-- `generateBundleEndpointConfig` from `configmap.go` (lines 217–254):
the bundle endpoint map of the federation block.  The result is returned as
the key/value list of the Go map, with the keys added in source order. -/
def generateBundleEndpointConfig (bundleEndpoint : BundleEndpointConfig) :
    List (String × Jsonv) :=
  let endpointConf : List (String × Jsonv) := [("address", .str "0.0.0.0"), ("port", .num 8443)]
  let endpointConf :=
    if bundleEndpoint.refreshHint > 0 then
      endpointConf ++ [("refresh_hint", .str (goSeconds bundleEndpoint.refreshHint))]
    else endpointConf
  if bundleEndpoint.profile = HttpsSpiffeProfile then
    endpointConf ++ [("acme", .null)]
  else if bundleEndpoint.profile = HttpsWebProfile ∧ bundleEndpoint.httpsWeb.isSome then
    match bundleEndpoint.httpsWeb with
    | none => endpointConf
    | some httpsWeb =>
      match httpsWeb.acme with
      | some acme =>
        endpointConf ++ [("acme", .mkObj
          [("directory_url", .str acme.directoryUrl),
           ("domain_name", .str acme.domainName),
           ("email", .str acme.email),
           ("tos_accepted", .bool (StringToBool acme.tosAccepted))])]
      | none =>
        match httpsWeb.servingCert with
        | some servingCert =>
          let certFile : List (String × Jsonv) :=
            [("cert_file_path", .str "/run/spire/federation-certs/tls.crt"),
             ("key_file_path", .str "/run/spire/federation-certs/tls.key")]
          let certFile :=
            if servingCert.fileSyncInterval > 0 then
              certFile ++ [("file_sync_interval", .str (goSeconds servingCert.fileSyncInterval))]
            else certFile
          endpointConf ++ [("serving_cert_file", .mkObj certFile)]
        | none => endpointConf
  else endpointConf

/-- `generateFederationConfig` from `configmap.go` (lines 176–214): bundle
endpoint plus the `federates_with` map keyed by remote trust domain, skipping
entries equal to the local trust domain. -/
def generateFederationConfig (federation : FederationConfig) (trustDomain : String) : Jsonv :=
  let bundleConf : List (String × Jsonv) :=
    [("bundle_endpoint", .mkObj (generateBundleEndpointConfig federation.bundleEndpoint))]
  if federation.federatesWith.length > 0 then
    let federatesWith := federation.federatesWith.filterMap (fun fedTrust =>
      if fedTrust.trustDomain = trustDomain then none
      else
        let profileConf : List (String × Jsonv) :=
          if fedTrust.bundleEndpointProfile = HttpsSpiffeProfile then
            [("bundle_endpoint_profile", .mkObj
              [("https_spiffe", .mkObj [("endpoint_spiffe_id", .str fedTrust.endpointSpiffeId)])])]
          else if fedTrust.bundleEndpointProfile = HttpsWebProfile then
            [("bundle_endpoint_profile", .mkObj [("https_web", .mkObj [])])]
          else []
        some (fedTrust.trustDomain,
          Jsonv.mkObj ([("bundle_endpoint_url", .str fedTrust.bundleEndpointUrl)] ++ profileConf)))
    .mkObj (bundleConf ++ [("federates_with", .mkObj federatesWith)])
  else
    .mkObj bundleConf

/-- `utils.GetLogLevelFromString` / `utils.GetLogFormatFromString` are not
among the provided sources; modelled from the spec ("log level and format"
flow from the spec fields) as the identity on the configured strings. -/
def GetLogLevelFromString (s : String) : String := s

/-- Modelled from the spec: see `GetLogLevelFromString`. -/
def GetLogFormatFromString (s : String) : String := s

/-- `generateServerConfMap` from `configmap.go` (lines 66–164): the full
`server.conf` document.  Key order inside each object follows the canonical
(sorted) order Go serialisation produces; the content is the source literal. -/
def generateServerConfMap (config : SpireServerSpec) : Jsonv :=
  let base : List (String × Jsonv) :=
    [("health_checks", .mkObj
        [("bind_address", .str "0.0.0.0"),
         ("bind_port", .str "8080"),
         ("listener_enabled", .bool true),
         ("live_path", .str "/live"),
         ("ready_path", .str "/ready")]),
     ("plugins", .mkObj
        [("DataStore", .arr [.mkObj
            [("sql", .mkObj
              [("plugin_data", .mkObj
                [("connection_string", .str config.datastore.connectionString),
                 ("database_type", .str config.datastore.databaseType),
                 ("disable_migration", .bool (StringToBool config.datastore.disableMigration)),
                 ("max_idle_conns", .num config.datastore.maxIdleConns),
                 ("max_open_conns", .num config.datastore.maxOpenConns)])])]]),
         ("KeyManager", .arr [.mkObj
            [("disk", .mkObj
              [("plugin_data", .mkObj [("keys_path", .str "/run/spire/data/keys.json")])])]]),
         ("NodeAttestor", .arr [.mkObj
            [("k8s_psat", .mkObj
              [("plugin_data", .mkObj
                [("clusters", .arr [.mkObj
                  [(config.clusterName, .mkObj
                    [("allowed_node_label_keys", .arr []),
                     ("allowed_pod_label_keys", .arr []),
                     ("audience", .arr [.str "spire-server"]),
                     ("service_account_allow_list", .arr
                       [.str "zero-trust-workload-identity-manager:spire-agent"])])]])])])]]),
         ("Notifier", .arr [.mkObj
            [("k8sbundle", .mkObj
              [("plugin_data", .mkObj
                [("config_map", .str config.bundleConfigMap),
                 ("namespace", .str OperatorNamespace)])])]])]),
     ("server", .mkObj
        [("audit_log_enabled", .bool false),
         ("bind_address", .str "0.0.0.0"),
         ("bind_port", .str "8081"),
         ("ca_key_type", .str "ec-p256"),
         ("ca_subject", .arr [.mkObj
            [("common_name", .str config.caSubject.commonName),
             ("country", .arr [.str config.caSubject.country]),
             ("organization", .arr [.str config.caSubject.organization])]]),
         ("ca_ttl", .str config.caValidity),
         ("data_dir", .str "/run/spire/data"),
         ("default_jwt_svid_ttl", .str config.defaultJWTValidity),
         ("default_x509_svid_ttl", .str config.defaultX509Validity),
         ("jwt_issuer", .str config.jwtIssuer),
         ("log_level", .str (GetLogLevelFromString config.logLevel)),
         ("log_format", .str (GetLogFormatFromString config.logFormat)),
         ("trust_domain", .str config.trustDomain)]),
     ("telemetry", .mkObj
        [("Prometheus", .mkObj [("host", .str "0.0.0.0"), ("port", .str "9402")])])]
  match config.federation with
  | some federation =>
      .mkObj (base ++ [("federation", generateFederationConfig federation config.trustDomain)])
  | none => .mkObj base

/-! ## Federation validation (`federation_validation.go`)

The validators return `some errorMessage` for the Go `error` and `none` for
`nil`.  Check order follows the source. -/

/-- `validateAcmeConfig` (lines 84–106). -/
def validateAcmeConfig (acme : Option AcmeConfig) : Option String :=
  match acme with
  | none => none
  | some acme =>
    if ¬ acme.directoryUrl.startsWith "https://" then
      some ("directoryUrl must use https://, got " ++ acme.directoryUrl)
    else if acme.domainName = "" then some "domainName is required"
    else if acme.email = "" then some "email is required"
    else if ¬ StringToBool acme.tosAccepted then some "tosAccepted must be true to use ACME"
    else none

/-- `validateServingCertConfig` (lines 109–123). -/
def validateServingCertConfig (servingCert : Option ServingCertConfig) : Option String :=
  match servingCert with
  | none => none
  | some servingCert =>
    if servingCert.secretName = "" then some "secretName is required"
    else if servingCert.fileSyncInterval > 0 ∧
        (servingCert.fileSyncInterval < 30 ∨ servingCert.fileSyncInterval > 3600) then
      some ("fileSyncInterval must be between 30 and 3600 seconds, got " ++
        toString servingCert.fileSyncInterval)
    else none

/-- `validateBundleEndpoint` (lines 37–81): https_web block rules, then the
port range, then the refresh hint range. -/
def validateBundleEndpoint (bundleEndpoint : BundleEndpointConfig) : Option String :=
  let webErr : Option String :=
    if bundleEndpoint.profile = HttpsWebProfile then
      match bundleEndpoint.httpsWeb with
      | none => some "httpsWeb configuration is required when profile is https_web"
      | some httpsWeb =>
        let acmeSet := httpsWeb.acme.isSome
        let certSet := httpsWeb.servingCert.isSome
        if acmeSet ∧ certSet then
          some "acme and servingCert are mutually exclusive, only one can be set"
        else if ¬ acmeSet ∧ ¬ certSet then
          some "either acme or servingCert must be set for https_web profile"
        else
          match validateAcmeConfig httpsWeb.acme with
          | some e => some ("invalid ACME configuration: " ++ e)
          | none =>
            match validateServingCertConfig httpsWeb.servingCert with
            | some e => some ("invalid ServingCert configuration: " ++ e)
            | none => none
    else none
  match webErr with
  | some e => some e
  | none =>
    if bundleEndpoint.port < 1 ∨ bundleEndpoint.port > 65535 then
      some ("port must be between 1 and 65535, got " ++ toString bundleEndpoint.port)
    else if bundleEndpoint.refreshHint > 0 ∧
        (bundleEndpoint.refreshHint < 60 ∨ bundleEndpoint.refreshHint > 3600) then
      some ("refreshHint must be between 60 and 3600 seconds, got " ++
        toString bundleEndpoint.refreshHint)
    else none

/-- `validateFederatedTrustDomain` (lines 126–153). -/
def validateFederatedTrustDomain (fedTrust : FederatesWithConfig) (index : Nat)
    (trustDomain : String) : Option String :=
  let at_ := "federatesWith[" ++ toString index ++ "]: "
  if fedTrust.trustDomain = trustDomain then
    some (at_ ++ "cannot federate with own trust domain " ++ trustDomain)
  else if fedTrust.trustDomain = "" then
    some (at_ ++ "trustDomain is required")
  else if ¬ fedTrust.bundleEndpointUrl.startsWith "https://" then
    some (at_ ++ "bundleEndpointUrl must use https://, got " ++ fedTrust.bundleEndpointUrl)
  else if fedTrust.bundleEndpointProfile = HttpsSpiffeProfile then
    if fedTrust.endpointSpiffeId = "" then
      some (at_ ++ "endpointSpiffeId is required for https_spiffe profile")
    else if ¬ fedTrust.endpointSpiffeId.startsWith "spiffe://" then
      some (at_ ++ "endpointSpiffeId must start with spiffe://, got " ++ fedTrust.endpointSpiffeId)
    else none
  else none

/-- First error among the indexed `federatesWith` entries. -/
def validateFederatesWithList (entries : List FederatesWithConfig) (index : Nat)
    (trustDomain : String) : Option String :=
  match entries with
  | [] => none
  | e :: rest =>
    match validateFederatedTrustDomain e index trustDomain with
    | some err => some err
    | none => validateFederatesWithList rest (index + 1) trustDomain

/-- `validateFederationConfig` (lines 12–34). -/
def validateFederationConfig (federation : Option FederationConfig) (trustDomain : String) :
    Option String :=
  match federation with
  | none => none
  | some federation =>
    match validateBundleEndpoint federation.bundleEndpoint with
    | some e => some ("invalid bundle endpoint configuration: " ++ e)
    | none =>
      if federation.federatesWith.length > 50 then
        some ("federatesWith array cannot exceed 50 entries, got " ++
          toString federation.federatesWith.length)
      else validateFederatesWithList federation.federatesWith 0 trustDomain

/-! ## Kubernetes object models

`corev1.Service`, `routev1.Route` and the pod-template fragments of
`appsv1.StatefulSet`, restricted to the fields the embedded functions read
or write.  Enumeration-valued fields are their string forms. -/

/-- `intstr.IntOrString`. -/
inductive IntOrString where
  | int (i : Int)
  | str (s : String)
deriving DecidableEq, Repr

/-- `corev1.ServicePort`. -/
structure ServicePort where
  name : String
  port : Int
  targetPort : IntOrString
  protocol : String
deriving DecidableEq, Repr

/-- `corev1.ServiceSpec`, restricted to the fields the reconciler touches. -/
structure ServiceSpec where
  stype : String
  ports : List ServicePort
  selector : List (String × String)
  clusterIP : String
  clusterIPs : List String
  ipFamilies : List String
  ipFamilyPolicy : Option String
  internalTrafficPolicy : Option String
  sessionAffinity : String
  healthCheckNodePort : Int
deriving DecidableEq, Repr

/-- `corev1.Service`. -/
structure KService where
  name : String
  namespc : String
  labels : List (String × String)
  annotations : List (String × String)
  resourceVersion : String
  spec : ServiceSpec
deriving DecidableEq, Repr

/-- `routev1.TLSConfig`. -/
structure RouteTLSConfig where
  termination : String
  insecureEdgeTerminationPolicy : String
  externalCertificate : Option String
deriving DecidableEq, Repr

/-- `routev1.Route`, restricted to the generated fields. -/
structure KRoute where
  name : String
  namespc : String
  labels : List (String × String)
  host : String
  toKind : String
  toName : String
  toWeight : Option Int
  targetPort : String
  tls : Option RouteTLSConfig
  wildcardPolicy : String
deriving DecidableEq, Repr

/-- `corev1.ContainerPort`. -/
structure ContainerPort where
  name : String
  containerPort : Int
  protocol : String
deriving DecidableEq, Repr

/-- `corev1.VolumeMount`. -/
structure VolumeMount where
  name : String
  mountPath : String
  subPath : String
  readOnly : Bool
deriving DecidableEq, Repr

/-- `corev1.Volume` with the sources used by the generators. -/
inductive VolumeSource where
  | emptyDir
  | configMap (name : String)
  | secret (secretName : String)
deriving DecidableEq, Repr

/-- `corev1.Volume`. -/
structure KVolume where
  name : String
  source : VolumeSource
deriving DecidableEq, Repr

/-- `corev1.Container`, restricted to the generated fields the claims read. -/
structure KContainer where
  name : String
  ports : List ContainerPort
  volumeMounts : List VolumeMount
deriving DecidableEq, Repr

/-- `appsv1.StatefulSet`, restricted to the pod-template fragments the claims
read, plus the resource version carried on updates. -/
structure KStatefulSet where
  name : String
  namespc : String
  labels : List (String × String)
  templateAnnotations : List (String × String)
  containers : List KContainer
  volumes : List KVolume
  resourceVersion : String
deriving DecidableEq, Repr

/-- `utils.StandardInstance` (the instance label value used in selectors).
Modelled from the spec: labels are `instance=<standard>`. -/
def StandardInstance : String := "zero-trust-workload-identity-manager"

/-- `utils.ServiceCAAnnotationKey` from `utils/constants.go`. -/
def ServiceCAAnnotationKey : String := "service.beta.openshift.io/serving-cert-secret-name"

/-- `utils.SpireServerServingCertName` from `utils/constants.go`. -/
def SpireServerServingCertName : String := "spire-server-serving-cert"

/-- `federationServiceName` from `federation_service.go`. -/
def federationServiceName : String := "spire-server-federation"

/-- `utils.SpireServerLabels`: the standard label set plus the user labels.
Modelled from the spec: canonical labels `managed-by`, `instance`,
`component` plus the custom labels. -/
def SpireServerLabels (custom : List (String × String)) : List (String × String) :=
  [("app.kubernetes.io/name", "spire-server"),
   ("app.kubernetes.io/instance", StandardInstance),
   ("app.kubernetes.io/component", "control-plane"),
   ("app.kubernetes.io/managed-by", "zero-trust-workload-identity-manager")] ++ custom

/-- The desired federation Service built inside `ensureFederationService`
(`federation_service.go`, lines 29–50): a ClusterIP service exposing the
configured bundle-endpoint port with the same target port. -/
def desiredFederationService (server : SpireServer) (federation : FederationConfig) : KService :=
  { name := federationServiceName
    namespc := OperatorNamespace
    labels := SpireServerLabels server.spec.labels
    annotations := []
    resourceVersion := ""
    spec :=
      { stype := "ClusterIP"
        ports := [{ name := "federation"
                    port := federation.bundleEndpoint.port
                    targetPort := .int federation.bundleEndpoint.port
                    protocol := "TCP" }]
        selector := [("app.kubernetes.io/name", "spire-server"),
                     ("app.kubernetes.io/instance", StandardInstance)]
        clusterIP := ""
        clusterIPs := []
        ipFamilies := []
        ipFamilyPolicy := none
        internalTrafficPolicy := none
        sessionAffinity := ""
        healthCheckNodePort := 0 } }

/-- `generateFederationRoute` from `federation_route.go` (recent snapshot,
lines 159–211): host `federation.<trust-domain>`, target port `federation`,
TLS termination chosen by the bundle-endpoint profile, external certificate
carried for a serving cert with a configured external certificate.  The Go
function dereferences `server.Spec.Federation`; its callers guard on a
configured federation, so the unconfigured case returns `none` here. -/
def generateFederationRoute (server : SpireServer) : Option KRoute :=
  match server.spec.federation with
  | none => none
  | some federation =>
    let base : KRoute :=
      { name := "spire-server-federation"
        namespc := OperatorNamespace
        labels := SpireServerLabels server.spec.labels
        host := "federation." ++ server.spec.trustDomain
        toKind := "Service"
        toName := "spire-server"
        toWeight := some 100
        targetPort := "federation"
        tls := none
        wildcardPolicy := "None" }
    if federation.bundleEndpoint.profile = HttpsSpiffeProfile then
      let tlsConf : RouteTLSConfig :=
        { termination := "passthrough"
          insecureEdgeTerminationPolicy := "Redirect"
          externalCertificate := none }
      some { base with tls := some tlsConf }
    else if federation.bundleEndpoint.profile = HttpsWebProfile then
      let externalCert : Option String :=
        match federation.bundleEndpoint.httpsWeb with
        | some httpsWeb =>
          match httpsWeb.servingCert with
          | some servingCert =>
            if servingCert.externalCertificate ≠ "" then some servingCert.externalCertificate
            else none
          | none => none
        | none => none
      let tlsConf : RouteTLSConfig :=
        { termination := "reencrypt"
          insecureEdgeTerminationPolicy := "Redirect"
          externalCertificate := externalCert }
      some { base with tls := some tlsConf }
    else some base

/-- `generateFederationRoute` from `federation_route.go` (older snapshot,
lines 19–43): no host, target service `spire-server-federation`, always
passthrough TLS with HTTP-to-HTTPS redirect. -/
def generateFederationRouteLegacy (server : SpireServer) : KRoute :=
  { name := "spire-server-federation"
    namespc := OperatorNamespace
    labels := SpireServerLabels server.spec.labels
    host := ""
    toKind := "Service"
    toName := federationServiceName
    toWeight := none
    targetPort := "federation"
    tls := some { termination := "passthrough"
                  insecureEdgeTerminationPolicy := "Redirect"
                  externalCertificate := none }
    wildcardPolicy := "None" }

/-! ## StatefulSet generators

Two snapshots exist in the repository.  `GenerateSpireServerStatefulSet` is
the recent one (health port `server-healthz`, federation port added only when
federation is configured, federation TLS volume `spire-server-tls` using the
platform-managed serving-cert secret); `GenerateSpireServerStatefulSetLegacy`
is the older one in `statefulset.go` (health port `healthz`, unconditional
federation port, federation volume `federation-certs` using the user-named
serving-cert secret).  Spec §9 designates the recent pattern. -/

def spireServerStatefulSetSpireServerConfigHashAnnotationKey : String :=
  "ztwim.openshift.io/spire-server-config-hash"

def spireServerStatefulSetSpireControllerManagerConfigHashAnnotationKey : String :=
  "ztwim.openshift.io/spire-controller-manager-config-hash"

/-- `spireServerHealthPort` (recent snapshot). -/
def spireServerHealthPort : String := "server-healthz"

/-- `spireCtrlMgrHealthPort` (recent snapshot). -/
def spireCtrlMgrHealthPort : String := "ctrlmgr-healthz"

/-- `DBTLSMountPath` (recent snapshot). -/
def DBTLSMountPath : String := "/run/spire/db/certs"

/-- Append to the first container of the pod (Go `Containers[0]`, the
spire-server container in both snapshots). -/
def modifyFirstContainer (f : KContainer → KContainer) : List KContainer → List KContainer
  | [] => []
  | c :: cs => f c :: cs

/-- `addFederationConfigurationToStatefulSet` from the recent StatefulSet
generator snapshot (lines 263–298): add the `federation` port 8443 to the
spire-server container, and, only when a serving cert is configured, mount
the platform-managed serving-cert secret (`spire-server-serving-cert`)
read-only at `/run/spire/server-tls` through a volume named
`spire-server-tls`. -/
def addFederationConfigurationToStatefulSet (sts : KStatefulSet)
    (federation : FederationConfig) : KStatefulSet :=
  let sts := { sts with containers := modifyFirstContainer (fun c =>
    { c with ports := c.ports ++
        [{ name := "federation", containerPort := 8443, protocol := "TCP" }] }) sts.containers }
  match federation.bundleEndpoint.httpsWeb with
  | some httpsWeb =>
    match httpsWeb.servingCert with
    | some _ =>
      let secretName := SpireServerServingCertName
      let mount : VolumeMount :=
        { name := "spire-server-tls", mountPath := "/run/spire/server-tls",
          subPath := "", readOnly := true }
      let sts := { sts with containers := modifyFirstContainer (fun c =>
        { c with volumeMounts := c.volumeMounts ++ [mount] }) sts.containers }
      let vol : KVolume := { name := "spire-server-tls", source := .secret secretName }
      { sts with volumes := sts.volumes ++ [vol] }
    | none => sts
  | none => sts

/-- Append to the container named `spire-server` (Go loop over containers
matching on the name, as in the older `addFederationToStatefulSet`). -/
def modifySpireServerContainer (f : KContainer → KContainer) (cs : List KContainer) :
    List KContainer :=
  cs.map (fun c => if c.name = "spire-server" then f c else c)

/-- `addFederationToStatefulSet` from `statefulset.go` (older snapshot,
lines 161–195): when a serving cert is configured, mount the user-named
serving-cert secret read-only at `/run/spire/federation-certs` through a
volume named `federation-certs`. -/
def addFederationToStatefulSet (sts : KStatefulSet) (federation : FederationConfig) :
    KStatefulSet :=
  match federation.bundleEndpoint.httpsWeb with
  | some httpsWeb =>
    match httpsWeb.servingCert with
    | some servingCert =>
      let mount : VolumeMount :=
        { name := "federation-certs", mountPath := "/run/spire/federation-certs",
          subPath := "", readOnly := true }
      let sts := { sts with containers := modifySpireServerContainer (fun c =>
        { c with volumeMounts := c.volumeMounts ++ [mount] }) sts.containers }
      let vol : KVolume := { name := "federation-certs", source := .secret servingCert.secretName }
      { sts with volumes := sts.volumes ++ [vol] }
    | none => sts
  | none => sts

/-- `GenerateSpireServerStatefulSet`, recent snapshot (lines 85–260),
restricted to the fields the claims read. -/
def GenerateSpireServerStatefulSet (config : SpireServerSpec)
    (spireServerConfigMapHash SpireControllerManagerConfigMapHash : String) : KStatefulSet :=
  let spireServerVolumeMounts : List VolumeMount :=
    [{ name := "spire-server-socket", mountPath := "/tmp/spire-server/private",
       subPath := "", readOnly := false },
     { name := "spire-config", mountPath := "/run/spire/config", subPath := "", readOnly := true },
     { name := "spire-data", mountPath := "/run/spire/data", subPath := "", readOnly := false },
     { name := "server-tmp", mountPath := "/tmp", subPath := "", readOnly := false }]
  let volumes : List KVolume :=
    [{ name := "server-tmp", source := .emptyDir },
     { name := "spire-config", source := .configMap "spire-server" },
     { name := "spire-server-socket", source := .emptyDir },
     { name := "spire-controller-manager-tmp", source := .emptyDir },
     { name := "controller-manager-config", source := .configMap "spire-controller-manager" }]
  let spireServerVolumeMounts :=
    if config.datastore.tlsSecretName ≠ "" then
      spireServerVolumeMounts ++
        [{ name := "db-certs", mountPath := DBTLSMountPath, subPath := "", readOnly := false }]
    else spireServerVolumeMounts
  let volumes :=
    if config.datastore.tlsSecretName ≠ "" then
      volumes ++ [{ name := "db-certs", source := .secret config.datastore.tlsSecretName }]
    else volumes
  let sts : KStatefulSet :=
    { name := "spire-server"
      namespc := OperatorNamespace
      labels := SpireServerLabels config.labels
      templateAnnotations :=
        [("kubectl.kubernetes.io/default-container", "spire-server"),
         (spireServerStatefulSetSpireServerConfigHashAnnotationKey, spireServerConfigMapHash),
         (spireServerStatefulSetSpireControllerManagerConfigHashAnnotationKey,
           SpireControllerManagerConfigMapHash)]
      containers :=
        [{ name := "spire-server"
           ports := [{ name := "grpc", containerPort := 8081, protocol := "TCP" },
                     { name := spireServerHealthPort, containerPort := 8080, protocol := "TCP" }]
           volumeMounts := spireServerVolumeMounts },
         { name := "spire-controller-manager"
           ports := [{ name := "https", containerPort := 9443, protocol := "" },
                     { name := spireCtrlMgrHealthPort, containerPort := 8083, protocol := "" }]
           volumeMounts :=
             [{ name := "spire-server-socket", mountPath := "/tmp/spire-server/private",
                subPath := "", readOnly := true },
              { name := "controller-manager-config",
                mountPath := "/controller-manager-config.yaml",
                subPath := "controller-manager-config.yaml", readOnly := true },
              { name := "spire-controller-manager-tmp", mountPath := "/tmp",
                subPath := "spire-controller-manager", readOnly := false }] }]
      volumes := volumes
      resourceVersion := "" }
  match config.federation with
  | some federation => addFederationConfigurationToStatefulSet sts federation
  | none => sts

/-- `GenerateSpireServerStatefulSet`, older snapshot (`statefulset.go`,
lines 19–158), restricted to the fields the claims read. -/
def GenerateSpireServerStatefulSetLegacy (config : SpireServerSpec)
    (spireServerConfigMapHash spireControllerMangerConfigMapHash : String) : KStatefulSet :=
  let sts : KStatefulSet :=
    { name := "spire-server"
      namespc := OperatorNamespace
      labels := SpireServerLabels config.labels
      templateAnnotations :=
        [("kubectl.kubernetes.io/default-container", "spire-server"),
         (spireServerStatefulSetSpireServerConfigHashAnnotationKey, spireServerConfigMapHash),
         (spireServerStatefulSetSpireControllerManagerConfigHashAnnotationKey,
           spireControllerMangerConfigMapHash)]
      containers :=
        [{ name := "spire-server"
           ports := [{ name := "grpc", containerPort := 8081, protocol := "TCP" },
                     { name := "healthz", containerPort := 8080, protocol := "TCP" },
                     { name := "federation", containerPort := 8443, protocol := "TCP" }]
           volumeMounts :=
             [{ name := "spire-server-socket", mountPath := "/tmp/spire-server/private",
                subPath := "", readOnly := false },
              { name := "spire-config", mountPath := "/run/spire/config",
                subPath := "", readOnly := true },
              { name := "spire-data", mountPath := "/run/spire/data",
                subPath := "", readOnly := false },
              { name := "server-tmp", mountPath := "/tmp", subPath := "", readOnly := false },
              { name := "spire-server-tls", mountPath := "/run/spire/server-tls",
                subPath := "", readOnly := true }] },
         { name := "spire-controller-manager"
           ports := [{ name := "https", containerPort := 9443, protocol := "" },
                     { name := "healthz", containerPort := 8083, protocol := "" }]
           volumeMounts :=
             [{ name := "spire-server-socket", mountPath := "/tmp/spire-server/private",
                subPath := "", readOnly := true },
              { name := "controller-manager-config",
                mountPath := "/controller-manager-config.yaml",
                subPath := "controller-manager-config.yaml", readOnly := true },
              { name := "spire-controller-manager-tmp", mountPath := "/tmp",
                subPath := "spire-controller-manager", readOnly := false }] }]
      volumes :=
        [{ name := "server-tmp", source := .emptyDir },
         { name := "spire-config", source := .configMap "spire-server" },
         { name := "spire-server-socket", source := .emptyDir },
         { name := "spire-controller-manager-tmp", source := .emptyDir },
         { name := "controller-manager-config", source := .configMap "spire-controller-manager" },
         { name := "spire-server-tls", source := .secret SpireServerServingCertName }]
      resourceVersion := "" }
  match config.federation with
  | some federation => addFederationToStatefulSet sts federation
  | none => sts

/-! ## Create-or-update steps of the SpireServer reconciler -/

/-- `utils.ResourceNeedsUpdate` for Services.  Modelled from the spec: the
utils package is not among the provided sources; the spec describes the
comparison as semantic deep-equality over spec and labels ("Only then compare
spec and labels via semantic deep-equality"). -/
def ResourceNeedsUpdate (existing desired : KService) : Bool :=
  existing.spec ≠ desired.spec ∨ existing.labels ≠ desired.labels

/-- Outcome of one service reconcile step: what, if anything, was submitted
to the resource store. -/
inductive ServiceStepResult where
  | created (obj : KService)
  | skippedCreateOnly
  | upToDate
  | updated (obj : KService)
deriving DecidableEq, Repr

/-- The create-or-update flow of `reconcileSpireServerService`
(`service.go`, lines 40–120), starting from the fetched current object:
create when absent; skip when create-only; otherwise preserve the
Kubernetes-managed fields from the current object onto the desired one,
normalise port protocols, compare, and update carrying the preserved
resource version. -/
def reconcileServiceStep (desired : KService) (existing : Option KService)
    (createOnlyMode : Bool) : ServiceStepResult :=
  match existing with
  | none => .created desired
  | some existing =>
    if createOnlyMode then .skippedCreateOnly
    else
      let spec :=
        { desired.spec with
            clusterIP := existing.spec.clusterIP
            clusterIPs := existing.spec.clusterIPs
            ipFamilies := existing.spec.ipFamilies
            ipFamilyPolicy := existing.spec.ipFamilyPolicy
            internalTrafficPolicy := existing.spec.internalTrafficPolicy
            sessionAffinity := existing.spec.sessionAffinity
            healthCheckNodePort :=
              if existing.spec.healthCheckNodePort ≠ 0 then existing.spec.healthCheckNodePort
              else desired.spec.healthCheckNodePort }
      let spec :=
        { spec with ports := spec.ports.map (fun p =>
            if p.protocol = "" then { p with protocol := "TCP" } else p) }
      let desired := { desired with resourceVersion := existing.resourceVersion, spec := spec }
      if ¬ ResourceNeedsUpdate existing desired then .upToDate
      else .updated desired

/-- Outcome of the StatefulSet reconcile step. -/
inductive StsStepResult where
  | created (obj : KStatefulSet)
  | skippedCreateOnly
  | upToDate
  | updated (obj : KStatefulSet)
deriving DecidableEq, Repr

/-- `utils.StatefulSetSpecModified`.  Modelled from the spec: the utils
package is not among the provided sources; the spec describes the comparison
as semantic deep-equality of the specs.  Only the embedded pod-template
fragments take part here. -/
def StatefulSetSpecModified (desired current : KStatefulSet) : Bool :=
  desired.containers ≠ current.containers ∨ desired.volumes ≠ current.volumes

/-- `needsUpdate` from `controller.go` (lines 465–476): config-hash
annotations, labels, then the spec comparison. -/
def needsUpdate (current desired : KStatefulSet) : Bool :=
  if current.templateAnnotations.lookup spireServerStatefulSetSpireServerConfigHashAnnotationKey ≠
      desired.templateAnnotations.lookup spireServerStatefulSetSpireServerConfigHashAnnotationKey then
    true
  else if current.templateAnnotations.lookup
        spireServerStatefulSetSpireControllerManagerConfigHashAnnotationKey ≠
      desired.templateAnnotations.lookup
        spireServerStatefulSetSpireControllerManagerConfigHashAnnotationKey then
    true
  else if current.labels ≠ desired.labels then true
  else if StatefulSetSpecModified desired current then true
  else false

/-- The create-or-update flow for the StatefulSet in `Reconcile`
(`controller.go`, lines 372–402): create when absent; on drift, skip in
create-only mode, otherwise update the desired object carrying the current
resource version. -/
def reconcileStatefulSetStep (sts : KStatefulSet) (existing : Option KStatefulSet)
    (createOnlyMode : Bool) : StsStepResult :=
  match existing with
  | none => .created sts
  | some existingSTS =>
    if needsUpdate existingSTS sts then
      if createOnlyMode then .skippedCreateOnly
      else .updated { sts with resourceVersion := existingSTS.resourceVersion }
    else .upToDate

/-! ## The SpireServer reconcile pipeline (create-only behaviour)

The pipeline of `Reconcile` in `spire-server/controller.go` (lines 84–434)
as a sequence of resource-store writes.  The per-child observations record
what the fetch returned and whether the source's comparison for that child
(config-data/label inequality for the ConfigMaps, `needsUpdate` for the
StatefulSet, `checkFederationRouteConflict` for the route) detected drift.
The JWT-issuer and TTL validators (`utils.IsValidURL`,
`validateTTLDurationsWithWarnings`) are not among the provided sources;
their boolean outcomes are part of the observation record. -/

/-- A resource-store write issued during a reconcile. -/
inductive StoreOp where
  | create (name : String)
  | update (name : String)
  | delete (name : String)
deriving DecidableEq, Repr

/-- Fetch outcome and drift observation for one child object. -/
inductive ChildObs where
  | absent
  | present (differs : Bool)
deriving DecidableEq, Repr

/-- Observed cluster state for one SpireServer reconcile. -/
structure ReconcileObs where
  serverConfigMap : ChildObs
  controllerManagerConfigMap : ChildObs
  statefulSet : ChildObs
  federationService : ChildObs
  federationRoute : ChildObs
  jwtIssuerValid : Bool
  ttlValid : Bool
deriving DecidableEq, Repr

/-- One create-or-update child step guarded by create-only mode, as
implemented for the two ConfigMaps and the StatefulSet in `Reconcile`. -/
def createOrUpdateOps (name : String) (obs : ChildObs) (createOnlyMode : Bool) : List StoreOp :=
  match obs with
  | .absent => [.create name]
  | .present differs =>
    if differs then
      if createOnlyMode then [] else [.update name]
    else []

/-- `ensureFederationService` (`federation_service.go`, lines 23–111) as
store writes: delete a leftover service when federation is not configured;
create when absent; otherwise update unconditionally unless create-only mode
is active. -/
def ensureFederationServiceOps (federationConfigured : Bool) (obs : ChildObs)
    (createOnlyMode : Bool) : List StoreOp :=
  if ¬ federationConfigured then
    match obs with
    | .absent => []
    | .present _ => [.delete ("service/" ++ federationServiceName)]
  else
    match obs with
    | .absent => [.create ("service/" ++ federationServiceName)]
    | .present _ =>
      if createOnlyMode then [] else [.update ("service/" ++ federationServiceName)]

/-- `managedFederationRoute` (`federation_route.go`, lines 51–140) as store
writes: nothing when federation is not configured or the managed-route flag
is off; create when absent; update when `checkFederationRouteConflict`
detects drift — with no create-only guard in the source. -/
def managedFederationRouteOps (federation : Option FederationConfig) (obs : ChildObs) :
    List StoreOp :=
  match federation with
  | none => []
  | some federation =>
    if StringToBool federation.managedRoute then
      match obs with
      | .absent => [.create "route/spire-server-federation"]
      | .present differs => if differs then [.update "route/spire-server-federation"] else []
    else []

/-- The child-write sequence of one SpireServer `Reconcile`
(`controller.go`, lines 84–434): after the JWT-issuer, TTL and federation
validations, the server ConfigMap, controller-manager ConfigMap, bundle
ConfigMap (unconditional create tolerating AlreadyExists), StatefulSet,
federation Service and federation Route steps run in order. -/
def spireServerReconcileOps (server : SpireServer) (obs : ReconcileObs)
    (createOnlyMode : Bool) : List StoreOp :=
  if ¬ obs.jwtIssuerValid then []
  else if ¬ obs.ttlValid then []
  else if (validateFederationConfig server.spec.federation server.spec.trustDomain).isSome then []
  else
    createOrUpdateOps "configmap/spire-server" obs.serverConfigMap createOnlyMode ++
    createOrUpdateOps "configmap/spire-controller-manager" obs.controllerManagerConfigMap
      createOnlyMode ++
    [.create ("configmap/" ++ server.spec.bundleConfigMap)] ++
    createOrUpdateOps "statefulset/spire-server" obs.statefulSet createOnlyMode ++
    ensureFederationServiceOps server.spec.federation.isSome obs.federationService
      createOnlyMode ++
    managedFederationRouteOps server.spec.federation obs.federationRoute

/-! ## Claim C3: operand-state classification -/

/-- The classifier as the claim states it: the failure-reason list includes
`OperandsNotReady`, and a non-ready record whose reason matches no listed
reason falls through to the message checks and otherwise to failed. -/
def classifyOperandStateClaimed (operand : OperandStatus) (readyCondition : Option KCondition) :
    OperandClassification :=
  if StringToBool operand.ready then .ready
  else
    let byReason : Option OperandClassification :=
      match readyCondition with
      | some c =>
        if c.reason = "InProgress" ∨ c.reason = "NotFound" ∨
            c.reason = "InitialReconcile" ∨ c.reason = "Reconciling" then some .progressing
        else if c.reason = "Failed" ∨ c.reason = "Unhealthy" ∨
            c.reason = "OperandsNotReady" then some .failed
        else none
      | none => none
    match byReason with
    | some k => k
    | none =>
      if operand.message = OperandMessageCRNotFound ∨
          operand.message = OperandMessageWaitingInitialRecon ∨
          operand.message = OperandMessageReconciling then
        .progressing
      else if containsFold operand.message "not found" ∨ containsFold operand.message "initial" ∨
          containsFold operand.message "reconciling" ∨ containsFold operand.message "progressing" then
        .progressing
      else
        .failed

/-- The classifier as amended to match the source: the failure-reason list is
`Failed`, `Unhealthy` only; a reason equal to `Ready` classifies the record
ready even though its ready flag is false; any other reason (including
`OperandsNotReady` and the empty reason) falls through to the message
checks. -/
def classifyOperandStateAmended (operand : OperandStatus) (readyCondition : Option KCondition) :
    OperandClassification :=
  if StringToBool operand.ready then .ready
  else
    let byReason : Option OperandClassification :=
      match readyCondition with
      | some c =>
        if c.reason ∈ ["InProgress", "NotFound", "InitialReconcile", "Reconciling"] then
          some .progressing
        else if c.reason ∈ ["Failed", "Unhealthy"] then some .failed
        else if c.reason = "Ready" then some .ready
        else none
      | none => none
    match byReason with
    | some k => k
    | none =>
      if operand.message ∈ [OperandMessageCRNotFound, OperandMessageWaitingInitialRecon,
          OperandMessageReconciling] then
        .progressing
      else if containsFold operand.message "not found" ∨ containsFold operand.message "initial" ∨
          containsFold operand.message "reconciling" ∨ containsFold operand.message "progressing" then
        .progressing
      else
        .failed

/-- A non-ready record whose `Ready` condition carries the reason
`OperandsNotReady` and whose message contains "reconciling". -/
def operandC3 : OperandStatus :=
  { kind := "SpireServer"
    name := "cluster"
    ready := "false"
    message := "still reconciling children"
    conditions := [{ ctype := "Ready", status := "False", reason := "OperandsNotReady",
                     message := "still reconciling children" }] }

/-- Claim C3, counterexample: on a non-ready record with reason
`OperandsNotReady` and a message containing "reconciling", the claim's
priority order classifies failed (reason listed as a failure reason), but
`classifyOperandState` has no `OperandsNotReady` case and falls through to
the substring match, classifying progressing. -/
theorem claim_C3_counterexample :
    classifyOperandState operandC3 (FindStatusCondition operandC3.conditions ReadyConditionType) =
        .progressing ∧
    classifyOperandStateClaimed operandC3
        (FindStatusCondition operandC3.conditions ReadyConditionType) = .failed := by
  constructor <;> decide

/-- Claim C3, amended: for every operand record and `Ready` condition, the
classifier returns ready for a true ready flag; otherwise classifies by the
reason with progressing reasons `InProgress`, `NotFound`, `InitialReconcile`,
`Reconciling`, failure reasons `Failed` and `Unhealthy` only, and the ready
reason `Ready`; otherwise by the known message constants; otherwise by the
case-insensitive substring match; otherwise failed. -/
theorem claim_C3_amended_theorem (operand : OperandStatus)
    (readyCondition : Option KCondition) :
    classifyOperandState operand readyCondition =
      classifyOperandStateAmended operand readyCondition := by
  unfold classifyOperandState classifyOperandStateAmended
  cases readyCondition with
  | none =>
    simp only [List.mem_cons, List.not_mem_nil, or_false,
      OperandMessageCRNotFound, OperandMessageWaitingInitialRecon, OperandMessageReconciling]
  | some c =>
    simp only [List.mem_cons, List.not_mem_nil, or_false,
      OperandMessageCRNotFound, OperandMessageWaitingInitialRecon, OperandMessageReconciling,
      ReasonInProgress, OperandStateNotFound, OperandStateInitialReconcile,
      OperandStateReconciling, ReasonFailed, OperandStateUnhealthy, ReasonReady]
    by_cases h0 : c.reason = ""
    · simp [h0]
    · split_ifs <;> simp_all

/-! ## Claim C2: top-level aggregation -/

/-- Non-ready record counted by `notCreatedCount`: classified progressing. -/
def isPendingOperand (o : OperandStatus) : Bool :=
  ¬ StringToBool o.ready ∧ classifyRecord o = .progressing

/-- Non-ready record counted by `failedCount`: classified anything but
progressing (including the ready classification reached through the `Ready`
reason). -/
def isFailedCountedOperand (o : OperandStatus) : Bool :=
  ¬ StringToBool o.ready ∧ classifyRecord o ≠ .progressing

/-- The fold of `processOperandStatus` computes: all-ready conjunction,
the number of non-ready records classified progressing, the number of
non-ready records not classified progressing, and the existence of a record
whose message is not the CR-not-found constant. -/
theorem processOperandStatus_foldl (rs : List OperandStatus) (s : OperandAggregateState) :
    rs.foldl (fun s o => processOperandStatus o s) s =
      { allReady := s.allReady && rs.all (fun o => StringToBool o.ready)
        notCreatedCount := s.notCreatedCount + (rs.filter isPendingOperand).length
        failedCount := s.failedCount + (rs.filter isFailedCountedOperand).length
        anyOperandExists :=
          s.anyOperandExists || rs.any (fun o => o.message ≠ OperandMessageCRNotFound) } := by
  induction rs generalizing s with
  | nil => simp
  | cons o rest ih =>
    simp only [List.foldl_cons, List.all_cons, List.any_cons, List.filter_cons]
    rw [ih]
    unfold processOperandStatus isPendingOperand isFailedCountedOperand
    by_cases h1 : StringToBool o.ready <;> by_cases h2 : classifyRecord o = .progressing <;>
      by_cases h3 : o.message = OperandMessageCRNotFound <;>
      simp_all <;> omega

/-- The two conditions written when every operand is ready. -/
def readyConditionsPair : List CondOut :=
  [⟨"OperandsAvailable", "True", ReasonReady, "All operand CRs are ready"⟩,
   ⟨"Ready", "True", ReasonReady, "All components are ready"⟩]

/-- The two conditions written on the progressing branch. -/
def inProgressConditionsPair (rs : List OperandStatus) : List CondOut :=
  [⟨"OperandsAvailable", "False", ReasonInProgress,
     "Waiting for operands: " ++ goFmtStrSlice (rs.filterMap pendingOperandTag)⟩,
   ⟨"Ready", "False", ReasonInProgress,
     "Waiting for operands: " ++ goFmtStrSlice (rs.filterMap pendingOperandTag)⟩]

/-- The two conditions written on the failed branch. -/
def failedConditionsPair (rs : List OperandStatus) : List CondOut :=
  [⟨"OperandsAvailable", "False", ReasonFailed,
     "Some operands not ready: " ++ goFmtStrSlice (rs.filterMap unhealthyOperandTag)⟩,
   ⟨"Ready", "False", ReasonFailed,
     "Some operands not ready: " ++ goFmtStrSlice (rs.filterMap unhealthyOperandTag)⟩]

/-- Claim C2, amended: for every set of four operand status records the
aggregator sets `OperandsAvailable` and `Ready` both to True/Ready when every
record's ready flag is true; both to False/InProgress with the message
listing each operand classified progressing, tagged "not created" or
"reconciling", when every non-ready record is classified progressing (and at
least one record is non-ready); and both to False/Failed with the message
listing the operands classified failed whenever some non-ready record is not
classified progressing — which includes non-ready records classified ready
through the `Ready` reason, so the failed-branch list can be empty. -/
theorem claim_C2_amended_theorem (o1 o2 o3 o4 : OperandStatus) :
    (([o1, o2, o3, o4].all (fun o => StringToBool o.ready)) →
       aggregateTopLevelConditions [o1, o2, o3, o4] = readyConditionsPair) ∧
    ((∀ o ∈ [o1, o2, o3, o4], ¬ StringToBool o.ready → classifyRecord o = .progressing) →
     ¬ ([o1, o2, o3, o4].all (fun o => StringToBool o.ready)) →
       aggregateTopLevelConditions [o1, o2, o3, o4] = inProgressConditionsPair [o1, o2, o3, o4]) ∧
    ((∃ o ∈ [o1, o2, o3, o4], ¬ StringToBool o.ready ∧ classifyRecord o ≠ .progressing) →
       aggregateTopLevelConditions [o1, o2, o3, o4] = failedConditionsPair [o1, o2, o3, o4]) := by
  have hfold := processOperandStatus_foldl [o1, o2, o3, o4]
    { allReady := true, notCreatedCount := 0, failedCount := 0, anyOperandExists := false }
  refine ⟨?_, ?_, ?_⟩
  · intro hall
    unfold aggregateTopLevelConditions aggregateCounters
    rw [hfold]
    simp [hall, readyConditionsPair]
  · intro hevery hnall
    unfold aggregateTopLevelConditions aggregateCounters
    rw [hfold]
    have hfail : List.filter isFailedCountedOperand [o1, o2, o3, o4] = [] := by
      rw [List.filter_eq_nil_iff]
      intro a ha
      unfold isFailedCountedOperand
      by_cases hr : StringToBool a.ready
      · simp [hr]
      · simp [hr, hevery a ha hr]
    have hpend : List.filter isPendingOperand [o1, o2, o3, o4] ≠ [] := by
      rw [List.all_eq_true] at hnall
      push_neg at hnall
      obtain ⟨a, ha, hra⟩ := hnall
      intro hnil
      rw [List.filter_eq_nil_iff] at hnil
      have := hnil a ha
      unfold isPendingOperand at this
      simp only [Bool.not_eq_true] at hra
      simp [hra, hevery a ha (by simp [hra])] at this
    have hlen : 0 < (List.filter isPendingOperand [o1, o2, o3, o4]).length :=
      List.length_pos.mpr hpend
    have hnallb : ([o1, o2, o3, o4].all (fun o => StringToBool o.ready)) = false := by
      simpa using hnall
    simp [hnallb, hfail, hlen, inProgressConditionsPair]
  · intro hex
    unfold aggregateTopLevelConditions aggregateCounters
    rw [hfold]
    obtain ⟨a, ha, hra, hca⟩ := hex
    have hnallb : ([o1, o2, o3, o4].all (fun o => StringToBool o.ready)) = false := by
      rw [Bool.eq_false_iff]
      intro hall
      rw [List.all_eq_true] at hall
      exact hra (by simpa using hall a ha)
    have hfailpos : 0 < (List.filter isFailedCountedOperand [o1, o2, o3, o4]).length := by
      rw [List.length_pos]
      intro hnil
      rw [List.filter_eq_nil_iff] at hnil
      have := hnil a ha
      unfold isFailedCountedOperand at this
      simp [hra, hca] at this
    have : ¬ ((0 + (List.filter isPendingOperand [o1, o2, o3, o4]).length > 0) ∧
        0 + (List.filter isFailedCountedOperand [o1, o2, o3, o4]).length = 0) := by
      rintro ⟨-, hzero⟩
      omega
    simp only [hnallb, Bool.false_eq_true, if_false]
    rw [if_neg this]
    simp [failedConditionsPair]

/-- A non-ready record whose `Ready` condition carries the reason `Ready`:
classified ready by the classifier, yet counted by `failedCount`. -/
def operandC2a : OperandStatus :=
  { kind := "SpireServer", name := "cluster", ready := "false", message := ""
    conditions := [{ ctype := "Ready", status := "False", reason := "Ready", message := "" }] }

/-- A record whose CR does not exist: classified progressing. -/
def operandC2b : OperandStatus :=
  { kind := "SpireAgent", name := "cluster", ready := "false", message := "CR not found"
    conditions := [] }

/-- A ready record. -/
def operandC2c : OperandStatus :=
  { kind := "SpiffeCSIDriver", name := "cluster", ready := "true", message := "Ready"
    conditions := [] }

/-- A ready record. -/
def operandC2d : OperandStatus :=
  { kind := "SpireOIDCDiscoveryProvider", name := "cluster", ready := "true", message := "Ready"
    conditions := [] }

/-- The four records of the C2 counterexample. -/
def operandsC2 : List OperandStatus := [operandC2a, operandC2b, operandC2c, operandC2d]

/-- Claim C2, counterexample: no record is classified failed and one record
is classified progressing, so the claim requires both conditions to be
False/InProgress; but the aggregator's `failedCount` also counts the
non-ready record classified ready (reason `Ready`), so the code takes the
Failed branch — with an empty operand list in the message. -/
theorem claim_C2_counterexample :
    (∀ o ∈ operandsC2, classifyRecord o ≠ .failed) ∧
    (∃ o ∈ operandsC2, classifyRecord o = .progressing) ∧
    ¬ (∀ o ∈ operandsC2, StringToBool o.ready) ∧
    aggregateTopLevelConditions operandsC2 =
      [⟨"OperandsAvailable", "False", ReasonFailed, "Some operands not ready: []"⟩,
       ⟨"Ready", "False", ReasonFailed, "Some operands not ready: []"⟩] := by
  refine ⟨by decide, ⟨operandC2b, by decide, by decide⟩, by decide, by decide⟩

/-! ## Claim C7: bundle endpoint validation -/

/-- Violation of the ACME rules: `https://` directory URL, non-empty domain
name and email, accepted terms of service. -/
def acmeConfigViolation (acme : AcmeConfig) : Bool :=
  !(acme.directoryUrl.startsWith "https://") || decide (acme.domainName = "") ||
    decide (acme.email = "") || !(StringToBool acme.tosAccepted)

/-- Violation of the serving-cert rules: non-empty secret name; a set
file-sync interval within [30, 3600]. -/
def servingCertViolation (servingCert : ServingCertConfig) : Bool :=
  decide (servingCert.secretName = "") || (decide (servingCert.fileSyncInterval > 0) &&
    (decide (servingCert.fileSyncInterval < 30) || decide (servingCert.fileSyncInterval > 3600)))

/-- The conditions under which the validator errs, per the source: web-PKI
block rules apply only under the https_web profile; the port must be in
[1, 65535]; a non-zero refresh hint must be in [60, 3600]. -/
def bundleEndpointViolation (be : BundleEndpointConfig) : Bool :=
  (decide (be.profile = HttpsWebProfile) &&
    (match be.httpsWeb with
     | none => true
     | some httpsWeb =>
       match httpsWeb.acme, httpsWeb.servingCert with
       | some _, some _ => true
       | none, none => true
       | some acme, none => acmeConfigViolation acme
       | none, some servingCert => servingCertViolation servingCert)) ||
  (decide (be.port < 1) || decide (be.port > 65535)) ||
  (decide (be.refreshHint > 0) &&
    (decide (be.refreshHint < 60) || decide (be.refreshHint > 3600)))

/-- Exactly one of ACME and serving cert configured (false when the web-PKI
block itself is absent). -/
def webExactlyOne (httpsWeb : Option HttpsWebConfig) : Bool :=
  match httpsWeb with
  | none => false
  | some httpsWeb =>
    (httpsWeb.acme.isSome && httpsWeb.servingCert.isNone) ||
      (httpsWeb.acme.isNone && httpsWeb.servingCert.isSome)

/-- The violation conditions exactly as the claim lists them: an unknown
profile is itself a violation, and the ACME / serving-cert block rules apply
to any set block. -/
def bundleEndpointViolationClaimed (be : BundleEndpointConfig) : Bool :=
  (decide (be.profile ≠ HttpsSpiffeProfile) && decide (be.profile ≠ HttpsWebProfile)) ||
  (decide (be.port < 1) || decide (be.port > 65535)) ||
  (decide (be.refreshHint > 0) &&
    (decide (be.refreshHint < 60) || decide (be.refreshHint > 3600))) ||
  (decide (be.profile = HttpsWebProfile) && !(webExactlyOne be.httpsWeb)) ||
  (match be.httpsWeb with
   | none => false
   | some httpsWeb =>
     (match httpsWeb.acme with
      | some acme => acmeConfigViolation acme
      | none => false) ||
     (match httpsWeb.servingCert with
      | some servingCert => servingCertViolation servingCert
      | none => false))

/-- A bundle endpoint whose profile is not a known value. -/
def bundleEndpointC7 : BundleEndpointConfig :=
  { port := 8443, address := "0.0.0.0", profile := "bogus", refreshHint := 0, httpsWeb := none }

/-- Claim C7, counterexample: on a bundle endpoint whose profile is the
unknown value "bogus" (port and refresh hint valid), the claim's condition
list is violated — the profile is not a known value — yet
`validateBundleEndpoint` returns no error: the source never checks that the
profile is a known value. -/
theorem claim_C7_counterexample :
    validateBundleEndpoint bundleEndpointC7 = none ∧
    bundleEndpointViolationClaimed bundleEndpointC7 = true := by
  constructor <;> decide

/-- Claim C7, amended: the bundle endpoint validator returns an error if and
only if the port is outside [1, 65535], or the refresh hint is non-zero and
outside [60, 3600], or the profile is https_web and the web-PKI block is
absent, or sets both or neither of ACME and serving cert, or its set ACME
block violates the ACME rules (https:// directory URL, non-empty domain name
and email, tos_accepted true), or its set serving-cert block violates the
serving-cert rules (non-empty secret name; a set file-sync interval in
[30, 3600]).  An unknown profile value is not checked, and the block rules
are not applied under other profiles. -/
theorem claim_C7_amended_theorem (be : BundleEndpointConfig) :
    (validateBundleEndpoint be).isSome = bundleEndpointViolation be := by
  unfold validateBundleEndpoint bundleEndpointViolation acmeConfigViolation
    servingCertViolation validateAcmeConfig validateServingCertConfig
  by_cases hprof : be.profile = HttpsWebProfile
  · rcases hhw : be.httpsWeb with _ | hwc
    · simp_all
    · rcases hac : hwc.acme with _ | a <;> rcases hsc : hwc.servingCert with _ | sc <;>
        simp_all <;> split_ifs <;> simp_all
  · simp_all
    split_ifs <;> simp_all

/-! ## Claim C6: bundle endpoint rendering -/

/-- Claim C6: every rendered bundle_endpoint block binds address "0.0.0.0"
and port 8443; carries refresh_hint "&lt;N&gt;s" exactly when the configured
refresh hint is positive; sets acme explicitly to null under the SPIFFE
profile; emits the acme block with string fields and a boolean tos_accepted
under web-PKI with ACME; and emits the serving_cert_file block with the
fixed /run/spire/federation-certs paths, the file_sync_interval field only
when positive, under web-PKI with a serving cert. -/
theorem claim_C6_theorem (be : BundleEndpointConfig) :
    (generateBundleEndpointConfig be).lookup "address" = some (.str "0.0.0.0") ∧
    (generateBundleEndpointConfig be).lookup "port" = some (.num 8443) ∧
    ((generateBundleEndpointConfig be).lookup "refresh_hint" =
      if be.refreshHint > 0 then some (.str (goSeconds be.refreshHint)) else none) ∧
    (be.profile = HttpsSpiffeProfile →
      (generateBundleEndpointConfig be).lookup "acme" = some .null) ∧
    (∀ httpsWeb acme, be.profile = HttpsWebProfile → be.httpsWeb = some httpsWeb →
      httpsWeb.acme = some acme →
      (generateBundleEndpointConfig be).lookup "acme" = some (.mkObj
        [("directory_url", .str acme.directoryUrl),
         ("domain_name", .str acme.domainName),
         ("email", .str acme.email),
         ("tos_accepted", .bool (StringToBool acme.tosAccepted))])) ∧
    (∀ httpsWeb servingCert, be.profile = HttpsWebProfile → be.httpsWeb = some httpsWeb →
      httpsWeb.acme = none → httpsWeb.servingCert = some servingCert →
      (generateBundleEndpointConfig be).lookup "serving_cert_file" = some (.mkObj
        ([("cert_file_path", .str "/run/spire/federation-certs/tls.crt"),
          ("key_file_path", .str "/run/spire/federation-certs/tls.key")] ++
         (if servingCert.fileSyncInterval > 0 then
            [("file_sync_interval", .str (goSeconds servingCert.fileSyncInterval))]
          else [])))) := by
  unfold generateBundleEndpointConfig
  have hne : HttpsSpiffeProfile ≠ HttpsWebProfile := by decide
  rcases hhw : be.httpsWeb with _ | hwc
  · by_cases hsp : be.profile = HttpsSpiffeProfile <;>
      by_cases hwp : be.profile = HttpsWebProfile <;>
        simp_all [List.lookup] <;> (try split_ifs) <;> (try simp_all [List.lookup]) <;>
          (try (intros; subst_vars; first | (split <;> rfl) | simp_all))
  · rcases hac : hwc.acme with _ | a <;> (try rcases hsc : hwc.servingCert with _ | sc) <;>
      by_cases hsp : be.profile = HttpsSpiffeProfile <;>
        by_cases hwp : be.profile = HttpsWebProfile <;>
          simp_all [List.lookup] <;> (try split_ifs) <;> (try simp_all [List.lookup]) <;>
            (try (intros; subst_vars; first | (split <;> rfl) | simp_all))

/-- Bundle endpoint under the SPIFFE profile. -/
def bundleEndpointC6spiffe : BundleEndpointConfig :=
  { port := 8443, address := "0.0.0.0", profile := "https_spiffe", refreshHint := 300,
    httpsWeb := none }

/-- Web-PKI bundle endpoint with ACME. -/
def bundleEndpointC6acme : BundleEndpointConfig :=
  { port := 8443, address := "0.0.0.0", profile := "https_web", refreshHint := 0,
    httpsWeb := some
      { acme := some { directoryUrl := "https://acme-v02.api.letsencrypt.org/directory",
                       domainName := "federation.cluster1.example.com",
                       email := "admin@example.com", tosAccepted := "true" }
        servingCert := none } }

/-- Web-PKI bundle endpoint with a serving cert. -/
def bundleEndpointC6cert : BundleEndpointConfig :=
  { port := 8443, address := "0.0.0.0", profile := "https_web", refreshHint := 0,
    httpsWeb := some
      { acme := none
        servingCert := some { secretName := "spire-server-federation-tls",
                              fileSyncInterval := 86400, externalCertificate := "" } } }

/-- Claim C6, witness: the theorem applied at the three profile
configurations. -/
theorem claim_C6_witness :
    (generateBundleEndpointConfig bundleEndpointC6spiffe).lookup "acme" = some .null ∧
    (generateBundleEndpointConfig bundleEndpointC6acme).lookup "acme" = some (.mkObj
      [("directory_url", .str "https://acme-v02.api.letsencrypt.org/directory"),
       ("domain_name", .str "federation.cluster1.example.com"),
       ("email", .str "admin@example.com"),
       ("tos_accepted", .bool true)]) ∧
    (generateBundleEndpointConfig bundleEndpointC6cert).lookup "serving_cert_file" = some (.mkObj
      [("cert_file_path", .str "/run/spire/federation-certs/tls.crt"),
       ("key_file_path", .str "/run/spire/federation-certs/tls.key"),
       ("file_sync_interval", .str "86400s")]) := by
  refine ⟨(claim_C6_theorem bundleEndpointC6spiffe).2.2.2.1 rfl, ?_, ?_⟩
  · have h := (claim_C6_theorem bundleEndpointC6acme).2.2.2.2.1
      { acme := some { directoryUrl := "https://acme-v02.api.letsencrypt.org/directory",
                       domainName := "federation.cluster1.example.com",
                       email := "admin@example.com", tosAccepted := "true" }
        servingCert := none }
      { directoryUrl := "https://acme-v02.api.letsencrypt.org/directory",
        domainName := "federation.cluster1.example.com",
        email := "admin@example.com", tosAccepted := "true" } rfl rfl rfl
    simpa using h
  · have h := (claim_C6_theorem bundleEndpointC6cert).2.2.2.2.2
      { acme := none
        servingCert := some { secretName := "spire-server-federation-tls",
                              fileSyncInterval := 86400, externalCertificate := "" } }
      { secretName := "spire-server-federation-tls", fileSyncInterval := 86400,
        externalCertificate := "" } rfl rfl rfl rfl
    simpa using h

/-- FIPS 180-4 test vector: the SHA-256 of the empty message. -/
theorem sha256Bytes_empty_vector :
    hexEncodeBytes (sha256Bytes (strBytes "")) =
      "e3b0c44298fc1c149afbf4c8996fb92427ae41e4649b934ca495991b7852b855" := by decide

/-- FIPS 180-4 test vector: the SHA-256 of "abc". -/
theorem sha256Bytes_abc_vector :
    hexEncodeBytes (sha256Bytes (strBytes "abc")) =
      "ba7816bf8f01cfea414140de5dae2223b00361a396177a9cb410ff61f20015ad" := by decide

/-! ## Claim C5: canonical-hash stability -/

/-- Claim C5: rendering the server configuration twice yields byte-identical
output after the trim step, hence the computed hashes agree; equal rendered
bytes always hash equal; and the hash function is SHA-256 of the
whitespace-trimmed serialized bytes, hex-encoded. -/
theorem claim_C5_theorem (spec spec2 : SpireServerSpec) :
    goTrimSpace (marshalToJSON (generateServerConfMap spec)) =
      goTrimSpace (marshalToJSON (generateServerConfMap spec)) ∧
    generateConfigHash (marshalToJSON (generateServerConfMap spec)) =
      generateConfigHash (marshalToJSON (generateServerConfMap spec)) ∧
    (marshalToJSON (generateServerConfMap spec) = marshalToJSON (generateServerConfMap spec2) →
      generateConfigHash (marshalToJSON (generateServerConfMap spec)) =
        generateConfigHash (marshalToJSON (generateServerConfMap spec2))) ∧
    (∀ data : String,
      generateConfigHash data = hexEncodeBytes (sha256Bytes (strBytes (goTrimSpace data)))) :=
  ⟨rfl, rfl, fun h => congrArg generateConfigHash h, fun _ => rfl⟩

/-- A minimal SpireServerSpec for the C5 witness. -/
def specC5 : SpireServerSpec :=
  { logLevel := "info", logFormat := "text", trustDomain := "cluster1.example.com"
    clusterName := "c1", bundleConfigMap := "spire-bundle"
    jwtIssuer := "https://oidc.example.com"
    caValidity := "24h0m0s", defaultX509Validity := "1h0m0s", defaultJWTValidity := "5m0s"
    caSubject := { country := "US", organization := "example", commonName := "example.com" }
    persistence := { ptype := "pvc", size := "1Gi", accessMode := "ReadWriteOnce",
                     storageClass := "", hostPath := "" }
    datastore := { databaseType := "sqlite3",
                   connectionString := "/run/spire/data/datastore.sqlite3",
                   disableMigration := "false", maxOpenConns := 100, maxIdleConns := 2,
                   tlsSecretName := "" }
    federation := none
    labels := [] }

/-- Claim C5, witness: the hash-congruence conjunct applied at a concrete
spec with the trivially discharged equal-render hypothesis. -/
theorem claim_C5_witness :
    generateConfigHash (marshalToJSON (generateServerConfMap specC5)) =
      generateConfigHash (marshalToJSON (generateServerConfMap specC5)) :=
  (claim_C5_theorem specC5 specC5).2.2.1 rfl

/-! ## Claim C8: federation route -/

/-- Claim C8: for a SpireServer with federation configured and the
managed-route flag true, the generated federation route has host
`federation.<trust domain>`; under the SPIFFE-authenticated profile its TLS
is passthrough with HTTP-to-HTTPS redirect; under the web-PKI profile it is
re-encrypt and carries an external-certificate reference to the named secret
when the serving cert configures one. -/
theorem claim_C8_theorem (server : SpireServer) (federation : FederationConfig)
    (hfed : server.spec.federation = some federation)
    (hmr : StringToBool federation.managedRoute = true) :
    ∃ route, generateFederationRoute server = some route ∧
      route.host = "federation." ++ server.spec.trustDomain ∧
      (federation.bundleEndpoint.profile = HttpsSpiffeProfile →
        route.tls = some { termination := "passthrough",
                           insecureEdgeTerminationPolicy := "Redirect",
                           externalCertificate := none }) ∧
      (federation.bundleEndpoint.profile = HttpsWebProfile →
        ∃ tls, route.tls = some tls ∧ tls.termination = "reencrypt" ∧
          ∀ httpsWeb servingCert, federation.bundleEndpoint.httpsWeb = some httpsWeb →
            httpsWeb.servingCert = some servingCert →
            servingCert.externalCertificate ≠ "" →
            tls.externalCertificate = some servingCert.externalCertificate) := by
  unfold generateFederationRoute
  rw [hfed]
  dsimp only
  by_cases hsp : federation.bundleEndpoint.profile = HttpsSpiffeProfile
  · rw [if_pos hsp]
    exact ⟨_, rfl, rfl, fun _ => rfl, fun hwp => absurd (hsp.symm.trans hwp) (by decide)⟩
  · rw [if_neg hsp]
    by_cases hwp : federation.bundleEndpoint.profile = HttpsWebProfile
    · rw [if_pos hwp]
      refine ⟨_, rfl, rfl, fun h => absurd h hsp, fun _ => ⟨_, rfl, rfl, ?_⟩⟩
      intro httpsWeb servingCert h1 h2 h3
      simp [h1, h2, h3]
    · rw [if_neg hwp]
      exact ⟨_, rfl, rfl, fun h => absurd h hsp, fun h => absurd h hwp⟩

/-- Federation config for the C8 witness: SPIFFE profile, managed route. -/
def federationC8 : FederationConfig :=
  { bundleEndpoint := { port := 8443, address := "0.0.0.0", profile := "https_spiffe",
                        refreshHint := 300, httpsWeb := none }
    federatesWith := []
    managedRoute := "true" }

/-- SpireServer for the C8 witness. -/
def serverC8 : SpireServer :=
  { spec := { specC5 with federation := some federationC8 } }

/-- Claim C8, witness: the theorem applied at a SPIFFE-profile server with
the managed-route flag true. -/
theorem claim_C8_witness :
    ∃ route, generateFederationRoute serverC8 = some route ∧
      route.host = "federation.cluster1.example.com" ∧
      route.tls = some { termination := "passthrough",
                         insecureEdgeTerminationPolicy := "Redirect",
                         externalCertificate := none } := by
  obtain ⟨route, h1, h2, h3, -⟩ := claim_C8_theorem serverC8 federationC8 rfl (by decide)
  exact ⟨route, h1, h2.trans (by decide), h3 rfl⟩

/-! ## Claim C9: federation serving-cert mount -/

/-- Federation config with a web-PKI serving cert for the C9 counterexample. -/
def federationC9 : FederationConfig :=
  { bundleEndpoint :=
      { port := 8443, address := "0.0.0.0", profile := "https_web", refreshHint := 0,
        httpsWeb := some
          { acme := none
            servingCert := some { secretName := "spire-server-federation-tls",
                                  fileSyncInterval := 86400, externalCertificate := "" } } }
    federatesWith := []
    managedRoute := "true" }

/-- SpireServerSpec with the web-PKI serving-cert federation for C9. -/
def specC9 : SpireServerSpec :=
  { specC5 with federation := some federationC9 }

/-- Claim C9, counterexample: the recent StatefulSet generator (the pattern
spec §9 designates) gives the spire-server container no volume mount at
`/run/spire/federation-certs` at all, and never mounts the user-named
serving-cert secret; so the generated StatefulSet does not match the
cert_file_path/key_file_path emitted in the rendered bundle endpoint
configuration. -/
theorem claim_C9_counterexample :
    (∀ c ∈ (GenerateSpireServerStatefulSet specC9 "hash1" "hash2").containers,
       ∀ m ∈ c.volumeMounts, m.mountPath ≠ "/run/spire/federation-certs") ∧
    (∀ v ∈ (GenerateSpireServerStatefulSet specC9 "hash1" "hash2").volumes,
       v.source ≠ .secret "spire-server-federation-tls") ∧
    (generateBundleEndpointConfig federationC9.bundleEndpoint).lookup "serving_cert_file" =
      some (.mkObj
        [("cert_file_path", .str "/run/spire/federation-certs/tls.crt"),
         ("key_file_path", .str "/run/spire/federation-certs/tls.key"),
         ("file_sync_interval", .str "86400s")]) := by
  refine ⟨by decide, by decide, rfl⟩

/-- Claim C9, amended: for a web-PKI serving-cert federation, the recent
StatefulSet generator mounts the platform-managed serving-cert secret
`spire-server-serving-cert` read-only at `/run/spire/server-tls` (volume
`spire-server-tls`) and has no mount at `/run/spire/federation-certs`, while
the legacy generator in `statefulset.go` mounts the user-named serving-cert
secret read-only at `/run/spire/federation-certs` (volume
`federation-certs`), matching the cert_file_path and key_file_path emitted in
the rendered bundle endpoint configuration. -/
theorem claim_C9_amended_theorem (config : SpireServerSpec) (federation : FederationConfig)
    (httpsWeb : HttpsWebConfig) (servingCert : ServingCertConfig) (h1 h2 : String)
    (hfed : config.federation = some federation)
    (hweb : federation.bundleEndpoint.httpsWeb = some httpsWeb)
    (hsc : httpsWeb.servingCert = some servingCert)
    (hprof : federation.bundleEndpoint.profile = HttpsWebProfile)
    (hacme : httpsWeb.acme = none) :
    (∃ c ∈ (GenerateSpireServerStatefulSet config h1 h2).containers,
      c.name = "spire-server" ∧
      ({ name := "spire-server-tls", mountPath := "/run/spire/server-tls",
         subPath := "", readOnly := true } : VolumeMount) ∈ c.volumeMounts) ∧
    ({ name := "spire-server-tls", source := .secret SpireServerServingCertName } : KVolume) ∈
      (GenerateSpireServerStatefulSet config h1 h2).volumes ∧
    (∀ c ∈ (GenerateSpireServerStatefulSet config h1 h2).containers,
      ∀ m ∈ c.volumeMounts, m.mountPath ≠ "/run/spire/federation-certs") ∧
    (∃ c ∈ (GenerateSpireServerStatefulSetLegacy config h1 h2).containers,
      c.name = "spire-server" ∧
      ({ name := "federation-certs", mountPath := "/run/spire/federation-certs",
         subPath := "", readOnly := true } : VolumeMount) ∈ c.volumeMounts) ∧
    ({ name := "federation-certs", source := .secret servingCert.secretName } : KVolume) ∈
      (GenerateSpireServerStatefulSetLegacy config h1 h2).volumes ∧
    (generateBundleEndpointConfig federation.bundleEndpoint).lookup "serving_cert_file" =
      some (.mkObj
        ([("cert_file_path", .str "/run/spire/federation-certs/tls.crt"),
          ("key_file_path", .str "/run/spire/federation-certs/tls.key")] ++
         (if servingCert.fileSyncInterval > 0 then
            [("file_sync_interval", .str (goSeconds servingCert.fileSyncInterval))]
          else []))) := by
  unfold GenerateSpireServerStatefulSet GenerateSpireServerStatefulSetLegacy
    addFederationConfigurationToStatefulSet addFederationToStatefulSet
    modifyFirstContainer modifySpireServerContainer generateBundleEndpointConfig
  have hne : HttpsWebProfile ≠ HttpsSpiffeProfile := by decide
  by_cases hdb : config.datastore.tlsSecretName = "" <;>
    simp_all [List.lookup, DBTLSMountPath] <;> split_ifs <;>
      simp_all [List.lookup, DBTLSMountPath]

/-- Claim C9, witness: the amended theorem applied at the concrete web-PKI
serving-cert spec. -/
theorem claim_C9_witness :
    ({ name := "spire-server-tls", source := .secret "spire-server-serving-cert" } : KVolume) ∈
      (GenerateSpireServerStatefulSet specC9 "hash1" "hash2").volumes ∧
    ({ name := "federation-certs",
       source := .secret "spire-server-federation-tls" } : KVolume) ∈
      (GenerateSpireServerStatefulSetLegacy specC9 "hash1" "hash2").volumes := by
  obtain ⟨-, hB, -, -, hE, -⟩ := claim_C9_amended_theorem specC9 federationC9
    { acme := none
      servingCert := some { secretName := "spire-server-federation-tls",
                            fileSyncInterval := 86400, externalCertificate := "" } }
    { secretName := "spire-server-federation-tls", fileSyncInterval := 86400,
      externalCertificate := "" }
    "hash1" "hash2" rfl rfl rfl rfl rfl
  exact ⟨hB, hE⟩

/-! ## Claim C10: federation service port vs rendered listen port -/

/-- In every branch of the bundle endpoint renderer the `port` key is the
fixed 8443 (lemma shared by the port-mismatch claim). -/
theorem lookup_port_bundleEndpoint (be : BundleEndpointConfig) :
    (generateBundleEndpointConfig be).lookup "port" = some (.num 8443) := by
  unfold generateBundleEndpointConfig
  rcases be.httpsWeb with _ | hwc
  · split_ifs <;> simp [List.lookup]
  · rcases hac : hwc.acme with _ | a <;> rcases hsc : hwc.servingCert with _ | sc <;>
      split_ifs <;> simp [List.lookup, hac, hsc]

/-- Claim C10: with federation configured at bundle-endpoint port p, the
federation Service exposes port p with target port p, while the StatefulSet's
federation container port and the rendered bundle endpoint port are fixed at
8443; hence for p ≠ 8443 the Service targets a port the rendered
configuration does not listen on. -/
theorem claim_C10_theorem (server : SpireServer) (federation : FederationConfig)
    (h1 h2 : String) (hfed : server.spec.federation = some federation) :
    (desiredFederationService server federation).spec.ports =
      [{ name := "federation", port := federation.bundleEndpoint.port,
         targetPort := .int federation.bundleEndpoint.port, protocol := "TCP" }] ∧
    (∃ c ∈ (GenerateSpireServerStatefulSet server.spec h1 h2).containers,
      c.name = "spire-server" ∧
      ({ name := "federation", containerPort := 8443,
         protocol := "TCP" } : ContainerPort) ∈ c.ports) ∧
    (generateBundleEndpointConfig federation.bundleEndpoint).lookup "port" =
      some (.num 8443) ∧
    (federation.bundleEndpoint.port ≠ 8443 →
      ∀ p ∈ (desiredFederationService server federation).spec.ports,
        p.targetPort ≠ .int 8443) := by
  refine ⟨rfl, ?_, lookup_port_bundleEndpoint federation.bundleEndpoint, ?_⟩
  · unfold GenerateSpireServerStatefulSet addFederationConfigurationToStatefulSet
      modifyFirstContainer
    rw [hfed]
    dsimp only
    rcases hhw : federation.bundleEndpoint.httpsWeb with _ | hwc <;>
      (try rcases hsc : hwc.servingCert with _ | sc) <;>
        by_cases hdb : server.spec.datastore.tlsSecretName = "" <;>
          simp_all
  · intro hne p hp
    unfold desiredFederationService at hp
    simp only [List.mem_singleton] at hp
    subst hp
    simp [hne]

/-- Federation config whose bundle endpoint uses port 9000. -/
def federationC10 : FederationConfig :=
  { bundleEndpoint := { port := 9000, address := "0.0.0.0", profile := "https_spiffe",
                        refreshHint := 300, httpsWeb := none }
    federatesWith := []
    managedRoute := "true" }

/-- SpireServer whose federation bundle endpoint uses port 9000. -/
def serverC10 : SpireServer :=
  { spec := { specC5 with federation := some federationC10 } }

/-- Claim C10, witness: at port 9000 the federation Service's single port
targets 9000, which is not the rendered listen port 8443. -/
theorem claim_C10_witness :
    ({ name := "federation", port := 9000, targetPort := .int 9000,
       protocol := "TCP" } : ServicePort).targetPort ≠ .int 8443 :=
  (claim_C10_theorem serverC10 federationC10 "hash1" "hash2" rfl).2.2.2 (by decide)
    { name := "federation", port := 9000, targetPort := .int 9000, protocol := "TCP" }
    (by decide)

/-! ## Claim C4: preserved server-managed fields -/

/-- Claim C4: whenever the service reconcile step submits an update (current
object exists, create-only off), the submitted object carries the current
object's cluster IP, cluster IPs, IP families, IP family policy, internal
traffic policy, session affinity, non-zero health-check node port and
resource version; and whenever the StatefulSet step submits an update, the
submitted object carries the current object's resource version. -/
theorem claim_C4_theorem (desired existing : KService)
    (stsDesired stsExisting : KStatefulSet) (u : KService) (su : KStatefulSet)
    (hupd : reconcileServiceStep desired (some existing) false = .updated u)
    (hsts : reconcileStatefulSetStep stsDesired (some stsExisting) false = .updated su) :
    u.spec.clusterIP = existing.spec.clusterIP ∧
    u.spec.clusterIPs = existing.spec.clusterIPs ∧
    u.spec.ipFamilies = existing.spec.ipFamilies ∧
    u.spec.ipFamilyPolicy = existing.spec.ipFamilyPolicy ∧
    u.spec.internalTrafficPolicy = existing.spec.internalTrafficPolicy ∧
    u.spec.sessionAffinity = existing.spec.sessionAffinity ∧
    (existing.spec.healthCheckNodePort ≠ 0 →
      u.spec.healthCheckNodePort = existing.spec.healthCheckNodePort) ∧
    u.resourceVersion = existing.resourceVersion ∧
    su.resourceVersion = stsExisting.resourceVersion := by
  unfold reconcileServiceStep at hupd
  unfold reconcileStatefulSetStep at hsts
  simp only [Bool.false_eq_true, if_false] at hupd hsts
  split_ifs at hupd hsts <;>
    (try cases hupd) <;> (try cases hsts) <;>
      exact ⟨rfl, rfl, rfl, rfl, rfl, rfl, by intro hz; simp_all, rfl, rfl⟩

/-- Freshly generated service for the C4 witness (no server-managed fields). -/
def desiredC4 : KService :=
  { name := "spire-server", namespc := OperatorNamespace
    labels := [("app", "v2")], annotations := [], resourceVersion := ""
    spec := { stype := "ClusterIP"
              ports := [{ name := "grpc", port := 8081, targetPort := .int 8081, protocol := "" }]
              selector := [("app.kubernetes.io/name", "spire-server")]
              clusterIP := "", clusterIPs := [], ipFamilies := [], ipFamilyPolicy := none
              internalTrafficPolicy := none, sessionAffinity := "", healthCheckNodePort := 0 } }

/-- Current cluster service for the C4 witness, with server-managed fields
assigned and drifted labels. -/
def existingC4 : KService :=
  { name := "spire-server", namespc := OperatorNamespace
    labels := [("app", "v1")], annotations := [], resourceVersion := "42"
    spec := { stype := "ClusterIP"
              ports := [{ name := "grpc", port := 8081, targetPort := .int 8081,
                          protocol := "TCP" }]
              selector := [("app.kubernetes.io/name", "spire-server")]
              clusterIP := "10.96.0.7", clusterIPs := ["10.96.0.7"], ipFamilies := ["IPv4"]
              ipFamilyPolicy := some "SingleStack", internalTrafficPolicy := some "Cluster"
              sessionAffinity := "None", healthCheckNodePort := 30707 } }

/-- The object the C4 witness step submits: the desired object carrying the
current object's server-managed fields and resource version. -/
def submittedC4 : KService :=
  { desiredC4 with
      resourceVersion := "42"
      spec := { desiredC4.spec with
                  ports := [{ name := "grpc", port := 8081, targetPort := .int 8081,
                              protocol := "TCP" }]
                  clusterIP := "10.96.0.7", clusterIPs := ["10.96.0.7"], ipFamilies := ["IPv4"]
                  ipFamilyPolicy := some "SingleStack", internalTrafficPolicy := some "Cluster"
                  sessionAffinity := "None", healthCheckNodePort := 30707 } }

/-- Desired StatefulSet for the C4 witness (new config hash). -/
def stsDesiredC4 : KStatefulSet :=
  { name := "spire-server", namespc := OperatorNamespace, labels := []
    templateAnnotations := [(spireServerStatefulSetSpireServerConfigHashAnnotationKey, "h-new")]
    containers := [], volumes := [], resourceVersion := "" }

/-- Current StatefulSet for the C4 witness (old config hash, assigned
resource version). -/
def stsExistingC4 : KStatefulSet :=
  { name := "spire-server", namespc := OperatorNamespace, labels := []
    templateAnnotations := [(spireServerStatefulSetSpireServerConfigHashAnnotationKey, "h-old")]
    containers := [], volumes := [], resourceVersion := "7" }

/-- The StatefulSet the C4 witness step submits. -/
def stsSubmittedC4 : KStatefulSet :=
  { stsDesiredC4 with resourceVersion := "7" }

/-- Claim C4, witness: the theorem applied at a drifted service and
StatefulSet; both update steps fire and carry the preserved fields. -/
theorem claim_C4_witness :
    submittedC4.spec.clusterIP = existingC4.spec.clusterIP ∧
    submittedC4.spec.clusterIPs = existingC4.spec.clusterIPs ∧
    submittedC4.spec.ipFamilies = existingC4.spec.ipFamilies ∧
    submittedC4.spec.ipFamilyPolicy = existingC4.spec.ipFamilyPolicy ∧
    submittedC4.spec.internalTrafficPolicy = existingC4.spec.internalTrafficPolicy ∧
    submittedC4.spec.sessionAffinity = existingC4.spec.sessionAffinity ∧
    (existingC4.spec.healthCheckNodePort ≠ 0 →
      submittedC4.spec.healthCheckNodePort = existingC4.spec.healthCheckNodePort) ∧
    submittedC4.resourceVersion = existingC4.resourceVersion ∧
    stsSubmittedC4.resourceVersion = stsExistingC4.resourceVersion :=
  claim_C4_theorem desiredC4 existingC4 stsDesiredC4 stsExistingC4 submittedC4 stsSubmittedC4
    (by decide) (by decide)

/-! ## Claim C1: create-only mode -/

/-- SpireServer for the C1 evaluation: valid SPIFFE federation with the
managed-route flag true. -/
def serverC1 : SpireServer :=
  { spec := { specC5 with federation := some federationC8 } }

/-- Observed state for the C1 evaluation: every child exists and every
child's comparison detects drift; the JWT-issuer and TTL validations pass. -/
def obsC1 : ReconcileObs :=
  { serverConfigMap := .present true
    controllerManagerConfigMap := .present true
    statefulSet := .present true
    federationService := .present true
    federationRoute := .present true
    jwtIssuerValid := true
    ttlValid := true }

/-- Claim C1, evaluation at the failing input: with create-only mode enabled
and drift detected on every child, the reconcile still issues an update to
the resource store — `managedFederationRoute` has no create-only guard, so
the pre-existing federation route is updated (the other steps are skipped;
the bundle ConfigMap create is an unconditional create, not an update). -/
theorem claim_C1_bug_theorem :
    spireServerReconcileOps serverC1 obsC1 true =
      [.create "configmap/spire-bundle", .update "route/spire-server-federation"] ∧
    StoreOp.update "route/spire-server-federation" ∈
      spireServerReconcileOps serverC1 obsC1 true := by
  constructor <;> decide

/-- Claim C2, witness: the amended theorem applied at four ready records
(Ready branch) and at four not-yet-created records (InProgress branch). -/
theorem claim_C2_witness :
    aggregateTopLevelConditions [operandC2c, operandC2c, operandC2c, operandC2c] =
      readyConditionsPair ∧
    aggregateTopLevelConditions [operandC2b, operandC2b, operandC2b, operandC2b] =
      inProgressConditionsPair [operandC2b, operandC2b, operandC2b, operandC2b] :=
  ⟨(claim_C2_amended_theorem operandC2c operandC2c operandC2c operandC2c).1 (by decide),
   (claim_C2_amended_theorem operandC2b operandC2b operandC2b operandC2b).2.1
     (by decide) (by decide)⟩
